import Mathlib

/-!
# NeutronSriovAgent reconciler

A shallow embedding of `controllers/neutronsriovagent_controller.go`:

* the Kubernetes object types the controller touches (only the fields the
  controller reads or writes, plus the metadata and status fields needed to
  tell objects apart);
* the API client as an in-memory object store that records every call it
  receives, together with the error it answered;
* `newDaemonset`, `setDaemonsetHash` and `Reconcile`, translated statement by
  statement.

Go maps (`map[string]string`) are represented by their entry lists, so that
`reflect.DeepEqual` on maps is structural equality of the lists.  Pointers to
scalars (`*bool`, `*int32`, ...) are `Option`s.
-/

namespace NeutronOperator

/-! ## Kubernetes object model -/

/-- A Go `map[string]string`, as its list of entries. -/
abbrev StringMap := List (String × String)

/-- The type `types.NamespacedName`. -/
structure NamespacedName where
  Namespace : String := ""
  Name : String := ""
deriving DecidableEq, Repr

/-- The type `metav1.TypeMeta`. -/
structure TypeMeta where
  Kind : String := ""
  APIVersion : String := ""
deriving DecidableEq, Repr

/-- The type `metav1.OwnerReference`. -/
structure OwnerReference where
  APIVersion : String := ""
  Kind : String := ""
  Name : String := ""
  UID : String := ""
  Controller : Option Bool := none
  BlockOwnerDeletion : Option Bool := none
deriving DecidableEq, Repr

/-- The type `metav1.ObjectMeta`. -/
structure ObjectMeta where
  Name : String := ""
  Namespace : String := ""
  UID : String := ""
  ResourceVersion : String := ""
  Labels : StringMap := []
  OwnerReferences : List OwnerReference := []
deriving DecidableEq, Repr

/-- The type `corev1.ConfigMap`. -/
structure ConfigMap where
  TypeMeta : TypeMeta := {}
  ObjectMeta : ObjectMeta := {}
  Data : StringMap := []
deriving DecidableEq, Repr

/-- The type `corev1.HostAlias`. -/
structure HostAlias where
  IP : String := ""
  Hostnames : List String := []
deriving DecidableEq, Repr

/-- The type `corev1.ObjectFieldSelector`. -/
structure ObjectFieldSelector where
  APIVersion : String := ""
  FieldPath : String := ""
deriving DecidableEq, Repr

/-- The type `corev1.EnvVarSource`. -/
structure EnvVarSource where
  FieldRef : Option ObjectFieldSelector := none
deriving DecidableEq, Repr

/-- The type `corev1.EnvVar`. -/
structure EnvVar where
  Name : String := ""
  Value : String := ""
  ValueFrom : Option EnvVarSource := none
deriving DecidableEq, Repr

/-- The type `corev1.MountPropagationMode`. -/
inductive MountPropagationMode where
  | MountPropagationNone
  | MountPropagationHostToContainer
  | MountPropagationBidirectional
deriving DecidableEq, Repr

/-- The type `corev1.VolumeMount`. -/
structure VolumeMount where
  Name : String := ""
  ReadOnly : Bool := false
  MountPath : String := ""
  SubPath : String := ""
  MountPropagation : Option MountPropagationMode := none
deriving DecidableEq, Repr

/-- The type `corev1.SecurityContext`. -/
structure SecurityContext where
  Privileged : Option Bool := none
deriving DecidableEq, Repr

/-- The type `corev1.Container`. -/
structure Container where
  Name : String := ""
  Image : String := ""
  Command : List String := []
  Env : List EnvVar := []
  VolumeMounts : List VolumeMount := []
  SecurityContext : Option SecurityContext := none
deriving DecidableEq, Repr

/-- The type `corev1.HostPathType`. -/
inductive HostPathType where
  | HostPathUnset
  | HostPathDirectoryOrCreate
  | HostPathDirectory
  | HostPathFileOrCreate
  | HostPathFile
deriving DecidableEq, Repr

/-- The type `corev1.HostPathVolumeSource`; its field `Type` is `PathType`
here. -/
structure HostPathVolumeSource where
  Path : String := ""
  PathType : Option HostPathType := none
deriving DecidableEq, Repr

/-- The type `corev1.LocalObjectReference`. -/
structure LocalObjectReference where
  Name : String := ""
deriving DecidableEq, Repr

/-- The type `corev1.ConfigMapVolumeSource`. -/
structure ConfigMapVolumeSource where
  LocalObjectReference : LocalObjectReference := {}
  DefaultMode : Option Int := none
deriving DecidableEq, Repr

/-- The type `corev1.EmptyDirVolumeSource`. -/
structure EmptyDirVolumeSource where
  Medium : String := ""
deriving DecidableEq, Repr

/-- The type `corev1.VolumeSource`. -/
structure VolumeSource where
  HostPath : Option HostPathVolumeSource := none
  ConfigMap : Option ConfigMapVolumeSource := none
  EmptyDir : Option EmptyDirVolumeSource := none
deriving DecidableEq, Repr

/-- The type `corev1.Volume`. -/
structure Volume where
  Name : String := ""
  VolumeSource : VolumeSource := {}
deriving DecidableEq, Repr

/-- The type `corev1.PodSpec`. -/
structure PodSpec where
  NodeSelector : StringMap := []
  HostNetwork : Bool := false
  HostPID : Bool := false
  DNSPolicy : String := ""
  HostAliases : List HostAlias := []
  InitContainers : List Container := []
  Containers : List Container := []
  Volumes : List Volume := []
deriving DecidableEq, Repr

/-- The type `corev1.PodTemplateSpec`. -/
structure PodTemplateSpec where
  ObjectMeta : ObjectMeta := {}
  Spec : PodSpec := {}
deriving DecidableEq, Repr

/-- The type `metav1.LabelSelector`. -/
structure LabelSelector where
  MatchLabels : StringMap := []
deriving DecidableEq, Repr

/-- The type `appsv1.DaemonSetSpec`. -/
structure DaemonSetSpec where
  Selector : Option LabelSelector := none
  Template : PodTemplateSpec := {}
  MinReadySeconds : Int := 0
  RevisionHistoryLimit : Option Int := none
deriving DecidableEq, Repr

/-- The type `appsv1.DaemonSetStatus`. -/
structure DaemonSetStatus where
  DesiredNumberScheduled : Int := 0
  NumberReady : Int := 0
deriving DecidableEq, Repr

/-- The type `appsv1.DaemonSet`. -/
structure DaemonSet where
  TypeMeta : TypeMeta := {}
  ObjectMeta : ObjectMeta := {}
  Spec : DaemonSetSpec := {}
  Status : DaemonSetStatus := {}
deriving DecidableEq, Repr

/-- The type `neutronv1beta1.NeutronSriovAgentSpec`: the two fields the
controller reads. -/
structure NeutronSriovAgentSpec where
  Label : String := ""
  NeutronSriovImage : String := ""
deriving DecidableEq, Repr

/-- The type `neutronv1beta1.NeutronSriovAgentStatus`. -/
structure NeutronSriovAgentStatus where
  DaemonsetHash : String := ""
deriving DecidableEq, Repr

/-- The type `neutronv1beta1.NeutronSriovAgent`. -/
structure NeutronSriovAgent where
  TypeMeta : TypeMeta := {}
  ObjectMeta : ObjectMeta := {}
  Spec : NeutronSriovAgentSpec := {}
  Status : NeutronSriovAgentStatus := {}
deriving DecidableEq, Repr

/-! ## Errors and results -/

/-- The `metav1.StatusReason` of an API error. -/
inductive StatusReason where
  | NotFound
  | AlreadyExists
  | Conflict
  | Forbidden
  | InternalError
deriving DecidableEq, Repr

/-- A Go `error`: API errors carry a status reason, other errors none. -/
structure Error where
  reason : Option StatusReason := none
  msg : String := ""
deriving DecidableEq, Repr

/-- The predicate `errors.IsNotFound`, on a possibly nil error. -/
def IsNotFound (err : Option Error) : Bool :=
  match err with
  | some e => decide (e.reason = some StatusReason.NotFound)
  | none => false

/-- The constant `time.Second`, a `time.Duration` in nanoseconds. -/
def Second : Nat := 1000000000

/-- The type `ctrl.Result`. -/
structure Result where
  Requeue : Bool := false
  RequeueAfter : Nat := 0
deriving DecidableEq, Repr

/-- The constant `CommonConfigMAP`. -/
def CommonConfigMAP : String := "common-config"

/-! ## The builder -/

/-- The function `newDaemonset`.  The package variable `ospHostAliases`, which
the Go function reads, is the explicit first argument. -/
def newDaemonset (ospHostAliases : List HostAlias) (cr : NeutronSriovAgent)
    (cmName : String) (configHash : String) : DaemonSet :=
  let bidirectional := MountPropagationMode.MountPropagationBidirectional
  let hostToContainer := MountPropagationMode.MountPropagationHostToContainer
  let trueVar := true
  let configVolumeDefaultMode : Int := 420 -- 0644
  let dirOrCreate := HostPathType.HostPathDirectoryOrCreate
  let daemonSet : DaemonSet :=
    { TypeMeta := { Kind := "DaemonSet", APIVersion := "apps/v1" }
      ObjectMeta := { Name := cmName, Namespace := cr.ObjectMeta.Namespace }
      Spec :=
        { Selector := some { MatchLabels := [("daemonset", cr.ObjectMeta.Name ++ "-daemonset")] }
          Template :=
            { ObjectMeta := { Labels := [("daemonset", cr.ObjectMeta.Name ++ "-daemonset")] }
              Spec :=
                { NodeSelector := [("daemon", cr.Spec.Label)]
                  HostNetwork := true
                  HostPID := true
                  DNSPolicy := "ClusterFirstWithHostNet"
                  HostAliases := ospHostAliases
                  InitContainers := []
                  Containers := [] } } } }
  let initContainerSpec : Container :=
    { Name := "sriov-agent-config-init"
      Image := cr.Spec.NeutronSriovImage
      SecurityContext := some { Privileged := some trueVar }
      Command :=
        ["/bin/bash", "-c",
         "export CTRL_IP_TENANT=$(getent hosts controller-0.tenant | awk \x27\x7bprint $1\x7d\x27) && export POD_IP_TENANT=$(ip route get $CTRL_IP_TENANT | awk \x27\x7bprint $5\x7d\x27) && cp -a /etc/neutron/* /tmp/neutron/"]
      Env :=
        [{ Name := "MY_POD_IP"
           ValueFrom := some { FieldRef := some { FieldPath := "status.podIP" } } }]
      VolumeMounts :=
        [{ Name := cmName, ReadOnly := true
           MountPath := "/etc/neutron/neutron.conf", SubPath := "neutron.conf" },
         { Name := cmName, ReadOnly := true
           MountPath := "/etc/neutron/plugins/ml2/sriov_agent.ini", SubPath := "sriov_agent.ini" },
         { Name := "etc-machine-id", MountPath := "/etc/machine-id", ReadOnly := true },
         { Name := "neutron-config-vol", MountPath := "/tmp/neutron", ReadOnly := false }] }
  let daemonSet : DaemonSet :=
    { daemonSet with
      Spec.Template.Spec.InitContainers :=
        daemonSet.Spec.Template.Spec.InitContainers ++ [initContainerSpec] }
  let neutronSriovAgentContainerSpec : Container :=
    { Name := "neutron-sriov-agent"
      Image := cr.Spec.NeutronSriovImage
      Command := ["/bin/sleep", "86400"]
      SecurityContext := some { Privileged := some trueVar }
      Env := [{ Name := "CONFIG_HASH", Value := configHash }]
      VolumeMounts :=
        [{ Name := cmName, ReadOnly := true
           MountPath := "/etc/neutron/neutron.conf", SubPath := "neutron.conf" },
         { Name := cmName, ReadOnly := true
           MountPath := "/etc/neutron/plugins/ml2/openvswitch_agent.ini"
           SubPath := "openvswitch_agent.ini" },
         { Name := "etc-machine-id", MountPath := "/etc/machine-id", ReadOnly := true },
         { Name := "lib-modules-volume", MountPath := "/lib/modules"
           MountPropagation := some hostToContainer },
         { Name := "run-openvswitch-volume", MountPath := "/var/run/openvswitch"
           MountPropagation := some bidirectional },
         { Name := "neutron-log-volume", MountPath := "/var/log/neutron"
           MountPropagation := some bidirectional },
         { Name := "neutron-config-vol", MountPath := "/etc/nova", ReadOnly := false }] }
  let daemonSet : DaemonSet :=
    { daemonSet with
      Spec.Template.Spec.Containers :=
        daemonSet.Spec.Template.Spec.Containers ++ [neutronSriovAgentContainerSpec] }
  let volConfigs : List Volume :=
    [{ Name := "etc-machine-id"
       VolumeSource := { HostPath := some { Path := "/etc/machine-id" } } },
     { Name := "run-volume"
       VolumeSource := { HostPath := some { Path := "/run" } } },
     { Name := "lib-modules-volume"
       VolumeSource := { HostPath := some { Path := "/lib/modules" } } },
     { Name := "run-openvswitch-volume"
       VolumeSource :=
         { HostPath := some { Path := "/var/run/openvswitch", PathType := some dirOrCreate } } },
     { Name := "neutron-log-volume"
       VolumeSource :=
         { HostPath :=
             some { Path := "/var/log/containers/neutron", PathType := some dirOrCreate } } },
     { Name := cmName
       VolumeSource :=
         { ConfigMap :=
             some { DefaultMode := some configVolumeDefaultMode
                    LocalObjectReference := { Name := cmName } } } },
     { Name := "neutron-config-vol"
       VolumeSource := { EmptyDir := some {} } }]
  volConfigs.foldl
    (fun (daemonSet : DaemonSet) (volConfig : Volume) =>
      { daemonSet with
        Spec.Template.Spec.Volumes := daemonSet.Spec.Template.Spec.Volumes ++ [volConfig] })
    daemonSet

/-! ## The API client

The client `r.Client` is an in-memory object store.  Every call is recorded,
with the error it returned, in the order of issue.  Each call takes the error
the API server answers this call with, if any (`fault`); without one the call
acts on the store.  A failed `Get` leaves its out-parameter at the zero
value. -/

/-- The kinds of object the controller reads. -/
inductive Kind where
  | NeutronSriovAgent
  | ConfigMap
  | DaemonSet
deriving DecidableEq, Repr

/-- A `runtime.Object` handed to the client. -/
inductive Object where
  | agent (o : NeutronSriovAgent)
  | configMap (o : ConfigMap)
  | daemonSet (o : DaemonSet)
deriving DecidableEq, Repr

/-- A call on the client: `Get`, `Create`, `Update`, `Status().Update`. -/
inductive Call where
  | Get (kind : Kind) (key : NamespacedName)
  | Create (obj : Object)
  | Update (obj : Object)
  | StatusUpdate (obj : Object)
deriving DecidableEq, Repr

/-- A call together with the error it returned (`none` is nil). -/
structure CallRecord where
  call : Call
  err : Option Error
deriving DecidableEq, Repr

/-- The objects held by the API server, by kind. -/
structure Store where
  agents : List NeutronSriovAgent := []
  configMaps : List ConfigMap := []
  daemonSets : List DaemonSet := []
deriving DecidableEq, Repr

/-- The store and the calls issued so far, oldest first. -/
structure Cluster where
  store : Store := {}
  calls : List CallRecord := []
deriving DecidableEq, Repr

/-- The namespace and name of an object. -/
def ObjectMeta.key (m : ObjectMeta) : NamespacedName :=
  { Namespace := m.Namespace, Name := m.Name }

/-- Appends a call and its answer to the record. -/
def Cluster.record (c : Cluster) (call : Call) (err : Option Error) : Cluster :=
  { c with calls := c.calls ++ [{ call := call, err := err }] }

/-- The stored agent under a key. -/
def Store.agent (s : Store) (key : NamespacedName) : Option NeutronSriovAgent :=
  s.agents.find? (fun o => decide (o.ObjectMeta.key = key))

/-- The stored ConfigMap under a key. -/
def Store.configMap (s : Store) (key : NamespacedName) : Option ConfigMap :=
  s.configMaps.find? (fun o => decide (o.ObjectMeta.key = key))

/-- The stored DaemonSet under a key. -/
def Store.daemonSet (s : Store) (key : NamespacedName) : Option DaemonSet :=
  s.daemonSets.find? (fun o => decide (o.ObjectMeta.key = key))

/-- The error of a `Get`, `Update` or `Status().Update` on an absent object. -/
def notFoundError (key : NamespacedName) : Error :=
  { reason := some StatusReason.NotFound, msg := key.Name ++ " not found" }

/-- The error of a `Create` of an object that exists. -/
def alreadyExistsError (key : NamespacedName) : Error :=
  { reason := some StatusReason.AlreadyExists, msg := key.Name ++ " already exists" }

/-- The call `Client.Get` into a `*NeutronSriovAgent`. -/
def Client.GetAgent (fault : Option Error) (key : NamespacedName) (c : Cluster) :
    NeutronSriovAgent × Option Error × Cluster :=
  match fault with
  | some e => ({}, some e, c.record (Call.Get Kind.NeutronSriovAgent key) (some e))
  | none =>
    match c.store.agent key with
    | some o => (o, none, c.record (Call.Get Kind.NeutronSriovAgent key) none)
    | none =>
      ({}, some (notFoundError key),
        c.record (Call.Get Kind.NeutronSriovAgent key) (some (notFoundError key)))

/-- The call `Client.Get` into a `*ConfigMap`. -/
def Client.GetConfigMap (fault : Option Error) (key : NamespacedName) (c : Cluster) :
    ConfigMap × Option Error × Cluster :=
  match fault with
  | some e => ({}, some e, c.record (Call.Get Kind.ConfigMap key) (some e))
  | none =>
    match c.store.configMap key with
    | some o => (o, none, c.record (Call.Get Kind.ConfigMap key) none)
    | none =>
      ({}, some (notFoundError key),
        c.record (Call.Get Kind.ConfigMap key) (some (notFoundError key)))

/-- The call `Client.Get` into a `*DaemonSet`. -/
def Client.GetDaemonSet (fault : Option Error) (key : NamespacedName) (c : Cluster) :
    DaemonSet × Option Error × Cluster :=
  match fault with
  | some e => ({}, some e, c.record (Call.Get Kind.DaemonSet key) (some e))
  | none =>
    match c.store.daemonSet key with
    | some o => (o, none, c.record (Call.Get Kind.DaemonSet key) none)
    | none =>
      ({}, some (notFoundError key),
        c.record (Call.Get Kind.DaemonSet key) (some (notFoundError key)))

/-- The call `Client.Create` of a ConfigMap. -/
def Client.CreateConfigMap (fault : Option Error) (obj : ConfigMap) (c : Cluster) :
    Option Error × Cluster :=
  match fault with
  | some e => (some e, c.record (Call.Create (Object.configMap obj)) (some e))
  | none =>
    match c.store.configMap obj.ObjectMeta.key with
    | some _ =>
      (some (alreadyExistsError obj.ObjectMeta.key),
        c.record (Call.Create (Object.configMap obj))
          (some (alreadyExistsError obj.ObjectMeta.key)))
    | none =>
      (none,
        { store := { c.store with configMaps := c.store.configMaps ++ [obj] }
          calls := c.calls ++ [{ call := Call.Create (Object.configMap obj), err := none }] })

/-- The call `Client.Create` of a DaemonSet. -/
def Client.CreateDaemonSet (fault : Option Error) (obj : DaemonSet) (c : Cluster) :
    Option Error × Cluster :=
  match fault with
  | some e => (some e, c.record (Call.Create (Object.daemonSet obj)) (some e))
  | none =>
    match c.store.daemonSet obj.ObjectMeta.key with
    | some _ =>
      (some (alreadyExistsError obj.ObjectMeta.key),
        c.record (Call.Create (Object.daemonSet obj))
          (some (alreadyExistsError obj.ObjectMeta.key)))
    | none =>
      (none,
        { store := { c.store with daemonSets := c.store.daemonSets ++ [obj] }
          calls := c.calls ++ [{ call := Call.Create (Object.daemonSet obj), err := none }] })

/-- The call `Client.Update` of a DaemonSet: the stored object is replaced. -/
def Client.UpdateDaemonSet (fault : Option Error) (obj : DaemonSet) (c : Cluster) :
    Option Error × Cluster :=
  match fault with
  | some e => (some e, c.record (Call.Update (Object.daemonSet obj)) (some e))
  | none =>
    match c.store.daemonSet obj.ObjectMeta.key with
    | none =>
      (some (notFoundError obj.ObjectMeta.key),
        c.record (Call.Update (Object.daemonSet obj)) (some (notFoundError obj.ObjectMeta.key)))
    | some _ =>
      (none,
        { store :=
            { c.store with
              daemonSets :=
                c.store.daemonSets.map
                  (fun o => if o.ObjectMeta.key = obj.ObjectMeta.key then obj else o) }
          calls := c.calls ++ [{ call := Call.Update (Object.daemonSet obj), err := none }] })

/-- The call `Client.Status().Update` of an agent: only the status of the
stored object is replaced. -/
def Client.StatusUpdateAgent (fault : Option Error) (obj : NeutronSriovAgent) (c : Cluster) :
    Option Error × Cluster :=
  match fault with
  | some e => (some e, c.record (Call.StatusUpdate (Object.agent obj)) (some e))
  | none =>
    match c.store.agent obj.ObjectMeta.key with
    | none =>
      (some (notFoundError obj.ObjectMeta.key),
        c.record (Call.StatusUpdate (Object.agent obj))
          (some (notFoundError obj.ObjectMeta.key)))
    | some _ =>
      (none,
        { store :=
            { c.store with
              agents :=
                c.store.agents.map
                  (fun o =>
                    if o.ObjectMeta.key = obj.ObjectMeta.key then { o with Status := obj.Status }
                    else o) }
          calls := c.calls ++ [{ call := Call.StatusUpdate (Object.agent obj), err := none }] })

/-! ## The reconciler -/

/-- The functions of other packages that `Reconcile` calls:
`controllerutil.SetControllerReference` (applied to `r.Scheme`; it rewrites the
metadata of the controlled object), `util.CreateOspHostsEntries` (the Go
function returns a list and an error), `neutronsriovagent.ConfigMap` and
`util.ObjectHash` at its two argument types. -/
structure Env where
  SetControllerReference : NeutronSriovAgent → ObjectMeta → Except Error ObjectMeta
  CreateOspHostsEntries : ConfigMap → List HostAlias × Option Error
  ObjectHashConfigMap : ConfigMap → Except Error String
  ObjectHashDaemonSet : DaemonSet → Except Error String
  ConfigMap : NeutronSriovAgent → String → ConfigMap

/-- The error, if any, the API server answers each client call of one pass
with, by call site (each site is executed at most once in a pass):
`Reconcile` lines 70, 85, 109, 112, 143, 146, 160 and `setDaemonsetHash`
line 178. -/
structure Faults where
  getInstance : Option Error := none
  getCommonConfig : Option Error := none
  getConfigMap : Option Error := none
  createConfigMap : Option Error := none
  getDaemonSet : Option Error := none
  createDaemonSet : Option Error := none
  updateDaemonSet : Option Error := none
  statusUpdate : Option Error := none
deriving DecidableEq, Repr

/-- What outlives a pass: the store and the package variable
`ospHostAliases`. -/
structure World where
  store : Store := {}
  ospHostAliases : List HostAlias := []
deriving DecidableEq, Repr

/-- The local variables of `Reconcile` when it returns (zero values where the
pass did not get that far; `inst` is the variable `instance`). -/
structure Frame where
  inst : NeutronSriovAgent := {}
  commonConfigMap : ConfigMap := {}
  configMap : ConfigMap := {}
  foundConfigMap : ConfigMap := {}
  configMapHash : String := ""
  ds : DaemonSet := {}
  dsHash : String := ""
  found : DaemonSet := {}
deriving DecidableEq, Repr

/-- One pass of `Reconcile`: the returned `ctrl.Result` and error, the world
it leaves, the client calls it issued in order, and its local variables. -/
structure Outcome where
  result : Result
  err : Option Error
  world : World
  calls : List CallRecord
  frame : Frame
deriving DecidableEq, Repr

/-- The error built by `fmt.Errorf("error calculating configuration hash: %v", err)`. -/
def hashError (err : Error) : Error :=
  { reason := none, msg := "error calculating configuration hash: " ++ err.msg }

/-- The method `setDaemonsetHash`: returns the (mutated) instance and the
error. -/
def setDaemonsetHash (fault : Option Error) (inst : NeutronSriovAgent) (hashStr : String)
    (c : Cluster) : NeutronSriovAgent × Option Error × Cluster :=
  if hashStr ≠ inst.Status.DaemonsetHash then
    let inst : NeutronSriovAgent := { inst with Status.DaemonsetHash := hashStr }
    match Client.StatusUpdateAgent fault inst c with
    | (some err, c) => (inst, some err, c)
    | (none, c) => (inst, none, c)
  else
    (inst, none, c)

/-- The method `Reconcile`. -/
def Reconcile (env : Env) (f : Faults) (req : NamespacedName) (w : World) : Outcome :=
  let c : Cluster := { store := w.store, calls := [] }
  -- Fetch the NeutronSriovAgent instance
  match Client.GetAgent f.getInstance req c with
  | (inst, some err, c) =>
    if IsNotFound (some err) then
      { result := {}, err := none, world := { w with store := c.store }, calls := c.calls
        frame := { inst := inst } }
    else
      { result := {}, err := some err, world := { w with store := c.store }, calls := c.calls
        frame := { inst := inst } }
  | (inst, none, c) =>
  match Client.GetConfigMap f.getCommonConfig
      { Name := CommonConfigMAP, Namespace := inst.ObjectMeta.Namespace } c with
  | (commonConfigMap, err, c) =>
  if err ≠ none && IsNotFound err then
    { result := {}, err := err, world := { w with store := c.store }, calls := c.calls
      frame := { inst := inst, commonConfigMap := commonConfigMap } }
  else
  match env.SetControllerReference inst commonConfigMap.ObjectMeta with
  | .error err =>
    { result := {}, err := some err, world := { w with store := c.store }, calls := c.calls
      frame := { inst := inst, commonConfigMap := commonConfigMap } }
  | .ok meta =>
  let commonConfigMap : ConfigMap := { commonConfigMap with ObjectMeta := meta }
  -- Create additional host entries added to the /etc/hosts file of the containers
  match env.CreateOspHostsEntries commonConfigMap with
  | (ospHostAliases, some err) =>
    { result := {}, err := some err
      world := { store := c.store, ospHostAliases := ospHostAliases }, calls := c.calls
      frame := { inst := inst, commonConfigMap := commonConfigMap } }
  | (ospHostAliases, none) =>
  -- ConfigMap
  let configMap := env.ConfigMap inst inst.ObjectMeta.Name
  match env.SetControllerReference inst configMap.ObjectMeta with
  | .error err =>
    { result := {}, err := some err
      world := { store := c.store, ospHostAliases := ospHostAliases }, calls := c.calls
      frame := { inst := inst, commonConfigMap := commonConfigMap, configMap := configMap } }
  | .ok meta =>
  let configMap : ConfigMap := { configMap with ObjectMeta := meta }
  -- Check if this ConfigMap already exists
  match Client.GetConfigMap f.getConfigMap
      { Name := configMap.ObjectMeta.Name, Namespace := configMap.ObjectMeta.Namespace } c with
  | (foundConfigMap, err, c) =>
  let step : Option Error × ConfigMap × Cluster :=
    if err ≠ none && IsNotFound err then
      match Client.CreateConfigMap f.createConfigMap configMap c with
      | (err, c) => (err, configMap, c)
    else if configMap.Data ≠ foundConfigMap.Data then
      (none, { configMap with Data := foundConfigMap.Data }, c)
    else
      (none, configMap, c)
  match step with
  | (some err, configMap, c) =>
    { result := {}, err := some err
      world := { store := c.store, ospHostAliases := ospHostAliases }, calls := c.calls
      frame :=
        { inst := inst, commonConfigMap := commonConfigMap, configMap := configMap
          foundConfigMap := foundConfigMap } }
  | (none, configMap, c) =>
  match env.ObjectHashConfigMap configMap with
  | .error err =>
    { result := {}, err := some (hashError err)
      world := { store := c.store, ospHostAliases := ospHostAliases }, calls := c.calls
      frame :=
        { inst := inst, commonConfigMap := commonConfigMap, configMap := configMap
          foundConfigMap := foundConfigMap } }
  | .ok configMapHash =>
  -- Define a new Daemonset object
  let ds := newDaemonset ospHostAliases inst inst.ObjectMeta.Name configMapHash
  match env.ObjectHashDaemonSet ds with
  | .error err =>
    { result := {}, err := some (hashError err)
      world := { store := c.store, ospHostAliases := ospHostAliases }, calls := c.calls
      frame :=
        { inst := inst, commonConfigMap := commonConfigMap, configMap := configMap
          foundConfigMap := foundConfigMap, configMapHash := configMapHash, ds := ds } }
  | .ok dsHash =>
  -- Set NeutronSriovAgent instance as the owner and controller
  match env.SetControllerReference inst ds.ObjectMeta with
  | .error err =>
    { result := {}, err := some err
      world := { store := c.store, ospHostAliases := ospHostAliases }, calls := c.calls
      frame :=
        { inst := inst, commonConfigMap := commonConfigMap, configMap := configMap
          foundConfigMap := foundConfigMap, configMapHash := configMapHash, ds := ds
          dsHash := dsHash } }
  | .ok meta =>
  let ds : DaemonSet := { ds with ObjectMeta := meta }
  -- Check if this Daemonset already exists
  match Client.GetDaemonSet f.getDaemonSet
      { Name := ds.ObjectMeta.Name, Namespace := ds.ObjectMeta.Namespace } c with
  | (found, err, c) =>
  if err ≠ none && IsNotFound err then
    match Client.CreateDaemonSet f.createDaemonSet ds c with
    | (some err, c) =>
      { result := {}, err := some err
        world := { store := c.store, ospHostAliases := ospHostAliases }, calls := c.calls
        frame :=
          { inst := inst, commonConfigMap := commonConfigMap, configMap := configMap
            foundConfigMap := foundConfigMap, configMapHash := configMapHash, ds := ds
            dsHash := dsHash, found := found } }
    | (none, c) =>
      -- ds created successfully - don't requeue
      { result := {}, err := none
        world := { store := c.store, ospHostAliases := ospHostAliases }, calls := c.calls
        frame :=
          { inst := inst, commonConfigMap := commonConfigMap, configMap := configMap
            foundConfigMap := foundConfigMap, configMapHash := configMapHash, ds := ds
            dsHash := dsHash, found := found } }
  else
  match err with
  | some err =>
    { result := {}, err := some err
      world := { store := c.store, ospHostAliases := ospHostAliases }, calls := c.calls
      frame :=
        { inst := inst, commonConfigMap := commonConfigMap, configMap := configMap
          foundConfigMap := foundConfigMap, configMapHash := configMapHash, ds := ds
          dsHash := dsHash, found := found } }
  | none =>
  if inst.Status.DaemonsetHash ≠ dsHash then
    let found : DaemonSet := { found with Spec := ds.Spec }
    match Client.UpdateDaemonSet f.updateDaemonSet found c with
    | (some err, c) =>
      { result := {}, err := some err
        world := { store := c.store, ospHostAliases := ospHostAliases }, calls := c.calls
        frame :=
          { inst := inst, commonConfigMap := commonConfigMap, configMap := configMap
            foundConfigMap := foundConfigMap, configMapHash := configMapHash, ds := ds
            dsHash := dsHash, found := found } }
    | (none, c) =>
      -- the error returned by setDaemonsetHash is dropped; `err` is the nil
      -- error of the Update
      match setDaemonsetHash f.statusUpdate inst dsHash c with
      | (inst, _, c) =>
      { result := { RequeueAfter := Second * 10 }, err := none
        world := { store := c.store, ospHostAliases := ospHostAliases }, calls := c.calls
        frame :=
          { inst := inst, commonConfigMap := commonConfigMap, configMap := configMap
            foundConfigMap := foundConfigMap, configMapHash := configMapHash, ds := ds
            dsHash := dsHash, found := found } }
  else
  -- Daemonset already exists - don't requeue
  { result := {}, err := none
    world := { store := c.store, ospHostAliases := ospHostAliases }, calls := c.calls
    frame :=
      { inst := inst, commonConfigMap := commonConfigMap, configMap := configMap
        foundConfigMap := foundConfigMap, configMapHash := configMapHash, ds := ds
        dsHash := dsHash, found := found } }

/-! ## A concrete environment

Concrete collaborators and a small cluster, on which the reconciler can be
run. -/

/-- The owner reference `controllerutil.SetControllerReference` builds for an
agent. -/
def controllerRef (owner : NeutronSriovAgent) : OwnerReference :=
  { APIVersion := "neutron.openstack.org/v1beta1", Kind := "NeutronSriovAgent"
    Name := owner.ObjectMeta.Name, UID := owner.ObjectMeta.UID
    BlockOwnerDeletion := some true, Controller := some true }

/-- Whether two owner references point at the same object (kind and name; the
API group is the same throughout). -/
def referSameObject (a b : OwnerReference) : Bool :=
  decide (a.APIVersion = b.APIVersion) && decide (a.Kind = b.Kind) && decide (a.Name = b.Name)

/-- The library function `controllerutil.SetControllerReference`: fails when
another controller owns the object, else inserts or replaces the reference to
the owner. -/
def controllerutil.SetControllerReference (owner : NeutronSriovAgent) (m : ObjectMeta) :
    Except Error ObjectMeta :=
  let ref := controllerRef owner
  if m.OwnerReferences.any (fun r => !referSameObject ref r && decide (r.Controller = some true))
  then
    .error { reason := none, msg := "Object " ++ m.Name ++ " is already owned by another controller" }
  else if m.OwnerReferences.any (fun r => referSameObject ref r) then
    .ok { m with
          OwnerReferences := m.OwnerReferences.map (fun r => if referSameObject ref r then ref else r) }
  else
    .ok { m with OwnerReferences := m.OwnerReferences ++ [ref] }

/-- Modelled from the spec: the builder `neutronsriovagent.ConfigMap` of package
`pkg/neutronsriovagent`, which is not among the sources.  The spec: namespace
is the agent's namespace, name is the given name, the data payload is left
empty. -/
def neutronsriovagent.ConfigMap (cr : NeutronSriovAgent) (cmName : String) :
    NeutronOperator.ConfigMap :=
  { TypeMeta := { Kind := "ConfigMap", APIVersion := "v1" }
    ObjectMeta := { Name := cmName, Namespace := cr.ObjectMeta.Namespace }
    Data := [] }

/-- A stand-in for `util.CreateOspHostsEntries`: one alias per data entry
(host name, address) of the ConfigMap. -/
def sampleCreateOspHostsEntries (cm : ConfigMap) : List HostAlias × Option Error :=
  (cm.Data.map (fun kv => { IP := kv.2, Hostnames := [kv.1] }), none)

/-- A stand-in for `util.ObjectHash` on a ConfigMap: a digest string of its
name, data and owner references. -/
def sampleObjectHashConfigMap (cm : ConfigMap) : Except Error String :=
  .ok ("cm:" ++ cm.ObjectMeta.Name ++ ":"
    ++ String.join (cm.Data.map (fun kv => kv.1 ++ "=" ++ kv.2 ++ ";")) ++ ":"
    ++ String.join (cm.ObjectMeta.OwnerReferences.map (fun r => r.UID ++ ";")))

/-- A stand-in for `util.ObjectHash` on a DaemonSet: a digest string of its
name, owner references, node selector, host aliases, images and environment
values. -/
def sampleObjectHashDaemonSet (ds : DaemonSet) : Except Error String :=
  .ok ("ds:" ++ ds.ObjectMeta.Name ++ ":"
    ++ String.join (ds.ObjectMeta.OwnerReferences.map (fun r => r.UID ++ ";")) ++ ":"
    ++ String.join (ds.Spec.Template.Spec.NodeSelector.map (fun kv => kv.2 ++ ";")) ++ ":"
    ++ String.join (ds.Spec.Template.Spec.HostAliases.map (fun a => a.IP ++ ";")) ++ ":"
    ++ String.join (ds.Spec.Template.Spec.Containers.map
        (fun k => k.Image ++ "," ++ String.join (k.Env.map (fun e => e.Value)) ++ ";")))

/-- The concrete environment. -/
def sampleEnv : Env :=
  { SetControllerReference := controllerutil.SetControllerReference
    CreateOspHostsEntries := sampleCreateOspHostsEntries
    ObjectHashConfigMap := sampleObjectHashConfigMap
    ObjectHashDaemonSet := sampleObjectHashDaemonSet
    ConfigMap := neutronsriovagent.ConfigMap }

/-- The request key `openstack/agent1`. -/
def sampleKey : NamespacedName := { Namespace := "openstack", Name := "agent1" }

/-- The agent `agent1` of the spec's scenario, with a given status
fingerprint. -/
def sampleAgent (hash : String) : NeutronSriovAgent :=
  { TypeMeta := { Kind := "NeutronSriovAgent", APIVersion := "neutron.openstack.org/v1beta1" }
    ObjectMeta := { Name := "agent1", Namespace := "openstack", UID := "uid-1" }
    Spec := { Label := "compute", NeutronSriovImage := "registry/neutron-sriov:latest" }
    Status := { DaemonsetHash := hash } }

/-- The companion ConfigMap `common-config` with one host entry. -/
def sampleCommonConfig : ConfigMap :=
  { TypeMeta := { Kind := "ConfigMap", APIVersion := "v1" }
    ObjectMeta := { Name := "common-config", Namespace := "openstack" }
    Data := [("controller-0.tenant", "10.0.0.5")] }

/-- The fingerprint the passes over `sampleAgent` compute. -/
def sampleHash : String :=
  "ds:agent1::compute;:10.0.0.5;:registry/neutron-sriov:latest,cm:agent1::uid-1;;"

/-- A world with the agent and `common-config` only. -/
def sampleWorldFresh : World :=
  { store := { agents := [sampleAgent ""], configMaps := [sampleCommonConfig] } }

/-! ## The reconciler in steps

The body of `Reconcile` cut at lines 122 and 141, for reasoning about a pass
step by step; `Reconcile_eq_steps` shows that `Reconcile` is their
composition. -/

/-- Lines 141-171 of `Reconcile` (the DaemonSet step), as a function of the
local variables `fr` and the cluster at line 141. -/
def daemonSetStep (f : Faults) (ospHostAliases : List HostAlias) (fr : Frame) (c : Cluster) :
    Outcome :=
  match Client.GetDaemonSet f.getDaemonSet
      { Name := fr.ds.ObjectMeta.Name, Namespace := fr.ds.ObjectMeta.Namespace } c with
  | (found, err, c) =>
  if err ≠ none && IsNotFound err then
    match Client.CreateDaemonSet f.createDaemonSet fr.ds c with
    | (some err, c) =>
      { result := {}, err := some err
        world := { store := c.store, ospHostAliases := ospHostAliases }, calls := c.calls
        frame := { fr with found := found } }
    | (none, c) =>
      { result := {}, err := none
        world := { store := c.store, ospHostAliases := ospHostAliases }, calls := c.calls
        frame := { fr with found := found } }
  else
  match err with
  | some err =>
    { result := {}, err := some err
      world := { store := c.store, ospHostAliases := ospHostAliases }, calls := c.calls
      frame := { fr with found := found } }
  | none =>
  if fr.inst.Status.DaemonsetHash ≠ fr.dsHash then
    let found : DaemonSet := { found with Spec := fr.ds.Spec }
    match Client.UpdateDaemonSet f.updateDaemonSet found c with
    | (some err, c) =>
      { result := {}, err := some err
        world := { store := c.store, ospHostAliases := ospHostAliases }, calls := c.calls
        frame := { fr with found := found } }
    | (none, c) =>
      match setDaemonsetHash f.statusUpdate fr.inst fr.dsHash c with
      | (inst, _, c) =>
      { result := { RequeueAfter := Second * 10 }, err := none
        world := { store := c.store, ospHostAliases := ospHostAliases }, calls := c.calls
        frame := { fr with inst := inst, found := found } }
  else
  { result := {}, err := none
    world := { store := c.store, ospHostAliases := ospHostAliases }, calls := c.calls
    frame := { fr with found := found } }

/-- Lines 122-171 of `Reconcile` (fingerprints, build, owner reference, then
the DaemonSet step), as a function of the local variables and the cluster at
line 122. -/
def fingerprintStep (env : Env) (f : Faults) (ospHostAliases : List HostAlias) (fr : Frame)
    (c : Cluster) : Outcome :=
  match env.ObjectHashConfigMap fr.configMap with
  | .error err =>
    { result := {}, err := some (hashError err)
      world := { store := c.store, ospHostAliases := ospHostAliases }, calls := c.calls
      frame := fr }
  | .ok configMapHash =>
  let ds := newDaemonset ospHostAliases fr.inst fr.inst.ObjectMeta.Name configMapHash
  match env.ObjectHashDaemonSet ds with
  | .error err =>
    { result := {}, err := some (hashError err)
      world := { store := c.store, ospHostAliases := ospHostAliases }, calls := c.calls
      frame := { fr with configMapHash := configMapHash, ds := ds } }
  | .ok dsHash =>
  match env.SetControllerReference fr.inst ds.ObjectMeta with
  | .error err =>
    { result := {}, err := some err
      world := { store := c.store, ospHostAliases := ospHostAliases }, calls := c.calls
      frame := { fr with configMapHash := configMapHash, ds := ds, dsHash := dsHash } }
  | .ok meta =>
  daemonSetStep f ospHostAliases
    { fr with configMapHash := configMapHash, ds := { ds with ObjectMeta := meta }, dsHash := dsHash }
    c

/-- Lines 63-120 of `Reconcile`, followed by `fingerprintStep`. -/
def reconcileSteps (env : Env) (f : Faults) (req : NamespacedName) (w : World) : Outcome :=
  let c : Cluster := { store := w.store, calls := [] }
  -- Fetch the NeutronSriovAgent instance
  match Client.GetAgent f.getInstance req c with
  | (inst, some err, c) =>
    if IsNotFound (some err) then
      { result := {}, err := none, world := { w with store := c.store }, calls := c.calls
        frame := { inst := inst } }
    else
      { result := {}, err := some err, world := { w with store := c.store }, calls := c.calls
        frame := { inst := inst } }
  | (inst, none, c) =>
  match Client.GetConfigMap f.getCommonConfig
      { Name := CommonConfigMAP, Namespace := inst.ObjectMeta.Namespace } c with
  | (commonConfigMap, err, c) =>
  if err ≠ none && IsNotFound err then
    { result := {}, err := err, world := { w with store := c.store }, calls := c.calls
      frame := { inst := inst, commonConfigMap := commonConfigMap } }
  else
  match env.SetControllerReference inst commonConfigMap.ObjectMeta with
  | .error err =>
    { result := {}, err := some err, world := { w with store := c.store }, calls := c.calls
      frame := { inst := inst, commonConfigMap := commonConfigMap } }
  | .ok meta =>
  let commonConfigMap : ConfigMap := { commonConfigMap with ObjectMeta := meta }
  -- Create additional host entries added to the /etc/hosts file of the containers
  match env.CreateOspHostsEntries commonConfigMap with
  | (ospHostAliases, some err) =>
    { result := {}, err := some err
      world := { store := c.store, ospHostAliases := ospHostAliases }, calls := c.calls
      frame := { inst := inst, commonConfigMap := commonConfigMap } }
  | (ospHostAliases, none) =>
  -- ConfigMap
  let configMap := env.ConfigMap inst inst.ObjectMeta.Name
  match env.SetControllerReference inst configMap.ObjectMeta with
  | .error err =>
    { result := {}, err := some err
      world := { store := c.store, ospHostAliases := ospHostAliases }, calls := c.calls
      frame := { inst := inst, commonConfigMap := commonConfigMap, configMap := configMap } }
  | .ok meta =>
  let configMap : ConfigMap := { configMap with ObjectMeta := meta }
  -- Check if this ConfigMap already exists
  match Client.GetConfigMap f.getConfigMap
      { Name := configMap.ObjectMeta.Name, Namespace := configMap.ObjectMeta.Namespace } c with
  | (foundConfigMap, err, c) =>
  let step : Option Error × ConfigMap × Cluster :=
    if err ≠ none && IsNotFound err then
      match Client.CreateConfigMap f.createConfigMap configMap c with
      | (err, c) => (err, configMap, c)
    else if configMap.Data ≠ foundConfigMap.Data then
      (none, { configMap with Data := foundConfigMap.Data }, c)
    else
      (none, configMap, c)
  match step with
  | (some err, configMap, c) =>
    { result := {}, err := some err
      world := { store := c.store, ospHostAliases := ospHostAliases }, calls := c.calls
      frame :=
        { inst := inst, commonConfigMap := commonConfigMap, configMap := configMap
          foundConfigMap := foundConfigMap } }
  | (none, configMap, c) =>
  fingerprintStep env f ospHostAliases
    { inst := inst, commonConfigMap := commonConfigMap, configMap := configMap
      foundConfigMap := foundConfigMap } c

/-- The calls of lines 63-120: reads of the agent and of ConfigMaps, and the
creation of a ConfigMap. -/
def Call.isPrep : Call → Bool
  | Call.Get Kind.NeutronSriovAgent _ => true
  | Call.Get Kind.ConfigMap _ => true
  | Call.Create (Object.configMap _) => true
  | _ => false

/-- The calls that change the store: `Create`, `Update`, `Status().Update`. -/
def Call.isWrite : Call → Bool
  | Call.Get _ _ => false
  | _ => true

/-- A world with the agent and its dependency missing: `common-config` is
absent. -/
def sampleWorldNoCommon : World :=
  { store := { agents := [sampleAgent ""] } }

/-- The agent's ConfigMap, seeded with data by hand. -/
def sampleSeededConfigMap : ConfigMap :=
  { TypeMeta := { Kind := "ConfigMap", APIVersion := "v1" }
    ObjectMeta := { Name := "agent1", Namespace := "openstack" }
    Data := [("neutron.conf", "[DEFAULT]")] }

/-- A world in which the agent's ConfigMap exists with seeded data. -/
def sampleWorldSeeded : World :=
  { store :=
      { agents := [sampleAgent ""], configMaps := [sampleCommonConfig, sampleSeededConfigMap] } }

/-- The agent's ConfigMap as a first pass creates it. -/
def sampleConfigMap : ConfigMap :=
  { TypeMeta := { Kind := "ConfigMap", APIVersion := "v1" }
    ObjectMeta :=
      { Name := "agent1", Namespace := "openstack"
        OwnerReferences := [controllerRef (sampleAgent "")] }
    Data := [] }

/-- A stored DaemonSet of the agent whose spec was tampered with: it is not
the spec the builder produces. -/
def sampleTamperedDaemonSet : DaemonSet :=
  { TypeMeta := { Kind := "DaemonSet", APIVersion := "apps/v1" }
    ObjectMeta := { Name := "agent1", Namespace := "openstack", UID := "uid-ds" }
    Spec := { MinReadySeconds := 30 }
    Status := { DesiredNumberScheduled := 3, NumberReady := 3 } }

/-- A world in which the stored DaemonSet is tampered with and the agent's
status fingerprint is the given one. -/
def sampleWorldTampered (hash : String) : World :=
  { store :=
      { agents := [sampleAgent hash], configMaps := [sampleCommonConfig, sampleConfigMap]
        daemonSets := [sampleTamperedDaemonSet] } }

/-- An API error that is not a not-found error. -/
def sampleConflict : Error :=
  { reason := some StatusReason.Conflict, msg := "the object has been modified" }

/-- An API error that is not a not-found error. -/
def sampleForbidden : Error :=
  { reason := some StatusReason.Forbidden, msg := "configmaps is forbidden" }

/-- A short name of a call, for reading traces. -/
def Call.verb : Call → String
  | Call.Get Kind.NeutronSriovAgent _ => "get agent"
  | Call.Get Kind.ConfigMap _ => "get configmap"
  | Call.Get Kind.DaemonSet _ => "get daemonset"
  | Call.Create (Object.configMap _) => "create configmap"
  | Call.Create (Object.daemonSet _) => "create daemonset"
  | Call.Create (Object.agent _) => "create agent"
  | Call.Update (Object.daemonSet _) => "update daemonset"
  | Call.Update _ => "update"
  | Call.StatusUpdate _ => "status update"

/-- A stand-in for `util.ObjectHash` on a ConfigMap that reads only its name
and data. -/
def sampleObjectHashConfigMapData (cm : ConfigMap) : Except Error String :=
  .ok ("cm:" ++ cm.ObjectMeta.Name ++ ":"
    ++ String.join (cm.Data.map (fun kv => kv.1 ++ "=" ++ kv.2 ++ ";")))

/-- The concrete environment with the ConfigMap hashed by name and data
only. -/
def sampleEnvDataHash : Env :=
  { sampleEnv with ObjectHashConfigMap := sampleObjectHashConfigMapData }

/-- The agent `agent1` as a second incarnation: same name, namespace and spec,
another UID and resource version. -/
def sampleAgentOtherOwner : NeutronSriovAgent :=
  { sampleAgent "" with ObjectMeta.UID := "uid-2", ObjectMeta.ResourceVersion := "7" }

/-- The world of `sampleWorldFresh` with the second incarnation of the
agent. -/
def sampleWorldOtherOwner : World :=
  { store := { agents := [sampleAgentOtherOwner], configMaps := [sampleCommonConfig] } }

/-! ## Lemmas on the client and on the steps of a pass -/

set_option maxRecDepth 100000

theorem Reconcile_eq_steps (env : Env) (f : Faults) (req : NamespacedName) (w : World) :
    Reconcile env f req w = reconcileSteps env f req w := by
  unfold Reconcile reconcileSteps fingerprintStep daemonSetStep
  rfl

theorem Client.GetAgent_eq (fault : Option Error) (key : NamespacedName) (c : Cluster) :
    ∃ o err, Client.GetAgent fault key c
        = (o, err, { store := c.store, calls := c.calls ++ [{ call := Call.Get Kind.NeutronSriovAgent key, err := err }] }) ∧
      (err = none → fault = none ∧ c.store.agent key = some o) := by
  unfold Client.GetAgent
  cases fault with
  | some e => exact ⟨_, _, rfl, by simp⟩
  | none =>
    cases h : c.store.agent key with
    | some o => exact ⟨_, _, rfl, by simp⟩
    | none => exact ⟨_, _, rfl, by simp⟩

theorem Client.GetConfigMap_eq (fault : Option Error) (key : NamespacedName) (c : Cluster) :
    ∃ o err, Client.GetConfigMap fault key c
        = (o, err, { store := c.store, calls := c.calls ++ [{ call := Call.Get Kind.ConfigMap key, err := err }] }) ∧
      (err = none → fault = none ∧ c.store.configMap key = some o) := by
  unfold Client.GetConfigMap
  cases fault with
  | some e => exact ⟨_, _, rfl, by simp⟩
  | none =>
    cases h : c.store.configMap key with
    | some o => exact ⟨_, _, rfl, by simp⟩
    | none => exact ⟨_, _, rfl, by simp⟩

theorem Client.GetDaemonSet_eq (fault : Option Error) (key : NamespacedName) (c : Cluster) :
    ∃ o err, Client.GetDaemonSet fault key c
        = (o, err, { store := c.store, calls := c.calls ++ [{ call := Call.Get Kind.DaemonSet key, err := err }] }) ∧
      (err = none → fault = none ∧ c.store.daemonSet key = some o) := by
  unfold Client.GetDaemonSet
  cases fault with
  | some e => exact ⟨_, _, rfl, by simp⟩
  | none =>
    cases h : c.store.daemonSet key with
    | some o => exact ⟨_, _, rfl, by simp⟩
    | none => exact ⟨_, _, rfl, by simp⟩

theorem Client.CreateConfigMap_eq (fault : Option Error) (obj : ConfigMap) (c : Cluster) :
    ∃ err s, Client.CreateConfigMap fault obj c
        = (err, { store := s
                  calls := c.calls ++ [{ call := Call.Create (Object.configMap obj), err := err }] }) ∧
      s.agents = c.store.agents ∧ s.daemonSets = c.store.daemonSets ∧
      (err = none → s.configMaps = c.store.configMaps ++ [obj]) ∧
      (err ≠ none → s = c.store) := by
  unfold Client.CreateConfigMap
  cases fault with
  | some e => exact ⟨_, _, rfl, rfl, rfl, by simp, by simp⟩
  | none =>
    cases h : c.store.configMap obj.ObjectMeta.key with
    | some o => exact ⟨_, _, rfl, rfl, rfl, by simp, by simp⟩
    | none => exact ⟨_, _, rfl, rfl, rfl, by simp, by simp⟩

theorem Client.CreateDaemonSet_eq (fault : Option Error) (obj : DaemonSet) (c : Cluster) :
    ∃ err s, Client.CreateDaemonSet fault obj c
        = (err, { store := s
                  calls := c.calls ++ [{ call := Call.Create (Object.daemonSet obj), err := err }] }) ∧
      s.agents = c.store.agents ∧ s.configMaps = c.store.configMaps ∧
      (err = none → s.daemonSets = c.store.daemonSets ++ [obj]) ∧
      (err ≠ none → s = c.store) := by
  unfold Client.CreateDaemonSet
  cases fault with
  | some e => exact ⟨_, _, rfl, rfl, rfl, by simp, by simp⟩
  | none =>
    cases h : c.store.daemonSet obj.ObjectMeta.key with
    | some o => exact ⟨_, _, rfl, rfl, rfl, by simp, by simp⟩
    | none => exact ⟨_, _, rfl, rfl, rfl, by simp, by simp⟩

theorem Client.UpdateDaemonSet_eq (fault : Option Error) (obj : DaemonSet) (c : Cluster) :
    ∃ err s, Client.UpdateDaemonSet fault obj c
        = (err, { store := s
                  calls := c.calls ++ [{ call := Call.Update (Object.daemonSet obj), err := err }] }) ∧
      s.agents = c.store.agents ∧ s.configMaps = c.store.configMaps ∧
      (err = none → s.daemonSets = c.store.daemonSets.map
          (fun o => if o.ObjectMeta.key = obj.ObjectMeta.key then obj else o)) ∧
      (err ≠ none → s = c.store) := by
  unfold Client.UpdateDaemonSet
  cases fault with
  | some e => exact ⟨_, _, rfl, rfl, rfl, by simp, by simp⟩
  | none =>
    cases h : c.store.daemonSet obj.ObjectMeta.key with
    | some o => exact ⟨_, _, rfl, rfl, rfl, by simp, by simp⟩
    | none => exact ⟨_, _, rfl, rfl, rfl, by simp, by simp⟩

theorem Client.StatusUpdateAgent_eq (fault : Option Error) (obj : NeutronSriovAgent)
    (c : Cluster) :
    ∃ err s, Client.StatusUpdateAgent fault obj c
        = (err, { store := s
                  calls := c.calls ++ [{ call := Call.StatusUpdate (Object.agent obj), err := err }] }) ∧
      s.daemonSets = c.store.daemonSets ∧ s.configMaps = c.store.configMaps ∧
      (err = none → s.agents = c.store.agents.map
          (fun o => if o.ObjectMeta.key = obj.ObjectMeta.key then { o with Status := obj.Status }
            else o)) ∧
      (err ≠ none → s = c.store) := by
  unfold Client.StatusUpdateAgent
  cases fault with
  | some e => exact ⟨_, _, rfl, rfl, rfl, by simp, by simp⟩
  | none =>
    cases h : c.store.agent obj.ObjectMeta.key with
    | some o => exact ⟨_, _, rfl, rfl, rfl, by simp, by simp⟩
    | none => exact ⟨_, _, rfl, rfl, rfl, by simp, by simp⟩



@[simp] theorem IsNotFound_none : IsNotFound none = false := rfl

theorem isNotFound_guard (e : Option Error) :
    (decide (e ≠ none) && IsNotFound e) = IsNotFound e := by
  cases e <;> simp [IsNotFound]

theorem Reconcile_head (env : Env) (f : Faults) (req : NamespacedName) (w : World) :
    ((∀ r ∈ (Reconcile env f req w).calls, r.call.isPrep = true) ∧
      (∀ r, (Reconcile env f req w).calls[2]? = some r → r.err ≠ none)) ∨
    ∃ aliases fr c e2 e3 cw,
      Reconcile env f req w = fingerprintStep env f aliases fr c ∧
      f.getInstance = none ∧ w.store.agent req = some fr.inst ∧
      c.store.agents = w.store.agents ∧ c.store.daemonSets = w.store.daemonSets ∧
      c.calls =
        [{ call := Call.Get Kind.NeutronSriovAgent req, err := none },
         { call := Call.Get Kind.ConfigMap
                     { Name := CommonConfigMAP, Namespace := fr.inst.ObjectMeta.Namespace }
           err := e2 },
         { call := Call.Get Kind.ConfigMap
                     { Name := fr.configMap.ObjectMeta.Name
                       Namespace := fr.configMap.ObjectMeta.Namespace }
           err := e3 }] ++ cw ∧
      ((IsNotFound e3 = true ∧
          cw = [{ call := Call.Create (Object.configMap fr.configMap), err := none }] ∧
          c.store.configMaps = w.store.configMaps ++ [fr.configMap]) ∨
       (IsNotFound e3 = false ∧ cw = [] ∧ c.store = w.store ∧
          fr.configMap.Data = fr.foundConfigMap.Data ∧
          (e3 = none →
            w.store.configMap
              { Name := fr.configMap.ObjectMeta.Name
                Namespace := fr.configMap.ObjectMeta.Namespace } = some fr.foundConfigMap))) := by
  rw [Reconcile_eq_steps]
  unfold reconcileSteps
  obtain ⟨inst, e1, h1, hs1⟩ := Client.GetAgent_eq f.getInstance req { store := w.store, calls := [] }
  simp only [List.nil_append] at h1
  simp only [h1]
  cases e1 with
  | some e =>
    left
    by_cases hnf : IsNotFound (some e) = true <;> simp [hnf, Call.isPrep]
  | none =>
    obtain ⟨hf1, hs1⟩ := hs1 rfl
    obtain ⟨cc, e2, h2, -⟩ := Client.GetConfigMap_eq f.getCommonConfig
      { Name := CommonConfigMAP, Namespace := inst.ObjectMeta.Namespace }
      { store := w.store, calls := [{ call := Call.Get Kind.NeutronSriovAgent req, err := none }] }
    simp only [List.cons_append, List.nil_append] at h2
    simp only [h2, isNotFound_guard]
    split
    next hnf2 =>
      left
      simp [Call.isPrep]
    next hnf2 =>
    split
    next err hS1 =>
      left
      simp [Call.isPrep]
    next meta hS1 =>
    split
    next aliases err hO =>
      left
      simp [Call.isPrep]
    next aliases hO =>
    split
    next err hS2 =>
      left
      simp [Call.isPrep]
    next meta2 hS2 =>
    obtain ⟨fcm, e3, h3, hs3⟩ := Client.GetConfigMap_eq f.getConfigMap
      { Name := meta2.Name, Namespace := meta2.Namespace }
      { store := w.store
        calls := [{ call := Call.Get Kind.NeutronSriovAgent req, err := none },
                  { call := Call.Get Kind.ConfigMap
                      { Name := CommonConfigMAP, Namespace := inst.ObjectMeta.Namespace }
                    err := e2 }] }
    simp only [List.cons_append, List.nil_append] at h3
    simp only [h3, isNotFound_guard]
    by_cases hnf3 : IsNotFound e3 = true
    · simp only [hnf3, if_true]
      obtain ⟨ce, s, h4, hA4, hD4, hC4, -⟩ := Client.CreateConfigMap_eq f.createConfigMap
        { env.ConfigMap inst inst.ObjectMeta.Name with ObjectMeta := meta2 }
        { store := w.store
          calls := [{ call := Call.Get Kind.NeutronSriovAgent req, err := none },
                    { call := Call.Get Kind.ConfigMap
                        { Name := CommonConfigMAP, Namespace := inst.ObjectMeta.Namespace }
                      err := e2 },
                    { call := Call.Get Kind.ConfigMap
                        { Name := meta2.Name, Namespace := meta2.Namespace }
                      err := e3 }] }
      simp only [List.cons_append, List.nil_append] at h4
      simp only [h4]
      cases ce with
      | some e =>
        left
        refine ⟨by simp [Call.isPrep], ?_⟩
        intro r hr
        simp at hr
        subst hr
        intro h0
        simp only at h0
        simp [h0] at hnf3
      | none =>
        right
        refine ⟨_, _, _, e2, e3, _, rfl, hf1, hs1, hA4, hD4, rfl, ?_⟩
        left
        exact ⟨hnf3, rfl, hC4 rfl⟩
    · simp only [hnf3]
      right
      by_cases hd : (env.ConfigMap inst inst.ObjectMeta.Name).Data = fcm.Data
      · simp only [hd, ne_eq, not_true_eq_false, if_false]
        refine ⟨_, _, _, e2, e3, [], rfl, hf1, hs1, rfl, rfl, rfl, ?_⟩
        right
        exact ⟨by simpa using hnf3, rfl, rfl, rfl, fun h => (hs3 h).2⟩
      · simp only [hd, ne_eq, not_false_eq_true, if_true]
        refine ⟨_, _, _, e2, e3, [], rfl, hf1, hs1, rfl, rfl, rfl, ?_⟩
        right
        exact ⟨by simpa using hnf3, rfl, rfl, rfl, fun h => (hs3 h).2⟩


theorem fingerprintStep_cases (env : Env) (f : Faults) (aliases : List HostAlias) (fr : Frame)
    (c : Cluster) :
    ((fingerprintStep env f aliases fr c).calls = c.calls ∧
      (fingerprintStep env f aliases fr c).world.store = c.store ∧
      (fingerprintStep env f aliases fr c).err ≠ none ∧
      (fingerprintStep env f aliases fr c).result = {} ∧
      (fingerprintStep env f aliases fr c).frame.inst = fr.inst ∧
      (fingerprintStep env f aliases fr c).frame.configMap = fr.configMap ∧
      (fingerprintStep env f aliases fr c).frame.foundConfigMap = fr.foundConfigMap ∧
      (∀ h, env.ObjectHashConfigMap fr.configMap = .ok h →
        (fingerprintStep env f aliases fr c).frame.configMapHash = h)) ∨
    ∃ h dh meta,
      env.ObjectHashConfigMap fr.configMap = .ok h ∧
      env.ObjectHashDaemonSet (newDaemonset aliases fr.inst fr.inst.ObjectMeta.Name h) = .ok dh ∧
      env.SetControllerReference fr.inst
        (newDaemonset aliases fr.inst fr.inst.ObjectMeta.Name h).ObjectMeta = .ok meta ∧
      fingerprintStep env f aliases fr c =
        daemonSetStep f aliases
          { fr with
            configMapHash := h
            ds := { newDaemonset aliases fr.inst fr.inst.ObjectMeta.Name h with ObjectMeta := meta }
            dsHash := dh } c := by
  unfold fingerprintStep
  cases hh : env.ObjectHashConfigMap fr.configMap with
  | error err => left; simp
  | ok h =>
    simp only []
    cases hd : env.ObjectHashDaemonSet (newDaemonset aliases fr.inst fr.inst.ObjectMeta.Name h) with
    | error err => left; simp
    | ok dh =>
      simp only []
      cases hr : env.SetControllerReference fr.inst
          (newDaemonset aliases fr.inst fr.inst.ObjectMeta.Name h).ObjectMeta with
      | error err => left; simp
      | ok m => right; exact ⟨h, dh, m, rfl, hd, hr, rfl⟩

theorem setDaemonsetHash_eq (fault : Option Error) (inst : NeutronSriovAgent) (hashStr : String)
    (c : Cluster) (hne : inst.Status.DaemonsetHash ≠ hashStr) :
    ∃ err s, setDaemonsetHash fault inst hashStr c
        = ({ inst with Status.DaemonsetHash := hashStr }, err,
            { store := s
              calls := c.calls ++
                [{ call := Call.StatusUpdate
                     (Object.agent { inst with Status.DaemonsetHash := hashStr })
                   err := err }] }) ∧
      s.daemonSets = c.store.daemonSets ∧ s.configMaps = c.store.configMaps ∧
      (err = none → s.agents = c.store.agents.map
          (fun o => if o.ObjectMeta.key = inst.ObjectMeta.key
            then { o with Status := { DaemonsetHash := hashStr } } else o)) ∧
      (err ≠ none → s = c.store) := by
  unfold setDaemonsetHash
  obtain ⟨err, s, h, hD, hC, hA, hE⟩ := Client.StatusUpdateAgent_eq fault
    { inst with Status.DaemonsetHash := hashStr } c
  have hne2 : hashStr ≠ inst.Status.DaemonsetHash := fun h => hne h.symm
  simp only [hne2, ne_eq, not_false_eq_true, if_true, h]
  refine ⟨err, s, ?_, hD, hC, hA, hE⟩
  cases err <;> rfl

theorem daemonSetStep_cases (f : Faults) (aliases : List HostAlias) (fr : Frame) (c : Cluster) :
    ∃ ge observed,
      (ge = none →
        c.store.daemonSet
          { Name := fr.ds.ObjectMeta.Name, Namespace := fr.ds.ObjectMeta.Namespace }
          = some observed) ∧
      (daemonSetStep f aliases fr c).world.ospHostAliases = aliases ∧
      (daemonSetStep f aliases fr c).frame.configMap = fr.configMap ∧
      (daemonSetStep f aliases fr c).frame.foundConfigMap = fr.foundConfigMap ∧
      (daemonSetStep f aliases fr c).frame.configMapHash = fr.configMapHash ∧
      (daemonSetStep f aliases fr c).frame.ds = fr.ds ∧
      (daemonSetStep f aliases fr c).frame.dsHash = fr.dsHash ∧
      (daemonSetStep f aliases fr c).world.store.configMaps = c.store.configMaps ∧
      ((IsNotFound ge = true ∧ ∃ ce,
          (daemonSetStep f aliases fr c).calls = c.calls ++
            [{ call := Call.Get Kind.DaemonSet
                 { Name := fr.ds.ObjectMeta.Name, Namespace := fr.ds.ObjectMeta.Namespace }
               err := ge },
             { call := Call.Create (Object.daemonSet fr.ds), err := ce }] ∧
          (daemonSetStep f aliases fr c).err = ce ∧
          (daemonSetStep f aliases fr c).result = {} ∧
          (daemonSetStep f aliases fr c).frame.inst = fr.inst ∧
          (daemonSetStep f aliases fr c).world.store.agents = c.store.agents ∧
          (ce = none →
            (daemonSetStep f aliases fr c).world.store.daemonSets
              = c.store.daemonSets ++ [fr.ds])) ∨
       (IsNotFound ge = false ∧
          (ge ≠ none ∨ fr.inst.Status.DaemonsetHash = fr.dsHash) ∧
          (daemonSetStep f aliases fr c).calls = c.calls ++
            [{ call := Call.Get Kind.DaemonSet
                 { Name := fr.ds.ObjectMeta.Name, Namespace := fr.ds.ObjectMeta.Namespace }
               err := ge }] ∧
          (daemonSetStep f aliases fr c).err = ge ∧
          (daemonSetStep f aliases fr c).result = {} ∧
          (daemonSetStep f aliases fr c).frame.inst = fr.inst ∧
          (daemonSetStep f aliases fr c).world.store = c.store) ∨
       (ge = none ∧ fr.inst.Status.DaemonsetHash ≠ fr.dsHash ∧ ∃ e,
          (daemonSetStep f aliases fr c).calls = c.calls ++
            [{ call := Call.Get Kind.DaemonSet
                 { Name := fr.ds.ObjectMeta.Name, Namespace := fr.ds.ObjectMeta.Namespace }
               err := none },
             { call := Call.Update (Object.daemonSet { observed with Spec := fr.ds.Spec })
               err := some e }] ∧
          (daemonSetStep f aliases fr c).err = some e ∧
          (daemonSetStep f aliases fr c).result = {} ∧
          (daemonSetStep f aliases fr c).frame.inst = fr.inst ∧
          (daemonSetStep f aliases fr c).world.store = c.store) ∨
       (ge = none ∧ fr.inst.Status.DaemonsetHash ≠ fr.dsHash ∧ ∃ se,
          (daemonSetStep f aliases fr c).calls = c.calls ++
            [{ call := Call.Get Kind.DaemonSet
                 { Name := fr.ds.ObjectMeta.Name, Namespace := fr.ds.ObjectMeta.Namespace }
               err := none },
             { call := Call.Update (Object.daemonSet { observed with Spec := fr.ds.Spec })
               err := none },
             { call := Call.StatusUpdate
                 (Object.agent { fr.inst with Status.DaemonsetHash := fr.dsHash })
               err := se }] ∧
          (daemonSetStep f aliases fr c).err = none ∧
          (daemonSetStep f aliases fr c).result = { RequeueAfter := Second * 10 } ∧
          (daemonSetStep f aliases fr c).frame.inst
            = { fr.inst with Status.DaemonsetHash := fr.dsHash } ∧
          (daemonSetStep f aliases fr c).world.store.daemonSets
            = c.store.daemonSets.map
                (fun o => if o.ObjectMeta.key = observed.ObjectMeta.key
                  then { observed with Spec := fr.ds.Spec } else o) ∧
          (se = none →
            (daemonSetStep f aliases fr c).world.store.agents
              = c.store.agents.map
                  (fun o => if o.ObjectMeta.key = fr.inst.ObjectMeta.key
                    then { o with Status := { DaemonsetHash := fr.dsHash } } else o)) ∧
          (se ≠ none →
            (daemonSetStep f aliases fr c).world.store.agents = c.store.agents))) := by
  generalize ho : daemonSetStep f aliases fr c = o
  unfold daemonSetStep at ho
  obtain ⟨found, ge, hg, hsg⟩ := Client.GetDaemonSet_eq f.getDaemonSet
    { Name := fr.ds.ObjectMeta.Name, Namespace := fr.ds.ObjectMeta.Namespace } c
  refine ⟨ge, found, fun h => (hsg h).2, ?_⟩
  simp only [hg, isNotFound_guard] at ho
  by_cases hnf : IsNotFound ge = true
  · simp only [hnf, if_true] at ho
    obtain ⟨ce, s, hc, hA, hC, hD, -⟩ := Client.CreateDaemonSet_eq f.createDaemonSet fr.ds
      { store := c.store
        calls := c.calls ++
          [{ call := Call.Get Kind.DaemonSet
               { Name := fr.ds.ObjectMeta.Name, Namespace := fr.ds.ObjectMeta.Namespace }
             err := ge }] }
    simp only [hc] at ho
    cases ce with
    | some e =>
      simp only [] at ho
      subst ho
      refine ⟨rfl, rfl, rfl, rfl, rfl, rfl, hC, Or.inl ⟨hnf, some e, ?_, rfl, rfl, rfl, hA, ?_⟩⟩
      · simp
      · simp
    | none =>
      simp only [] at ho
      subst ho
      refine ⟨rfl, rfl, rfl, rfl, rfl, rfl, hC, Or.inl ⟨hnf, none, ?_, rfl, rfl, rfl, hA, ?_⟩⟩
      · simp
      · intro _; exact hD rfl
  · have hnf' : IsNotFound ge = false := by simpa using hnf
    simp only [hnf, if_false] at ho
    cases ge with
    | some e =>
      simp only [] at ho
      subst ho
      exact ⟨rfl, rfl, rfl, rfl, rfl, rfl, rfl,
        Or.inr (Or.inl ⟨hnf', Or.inl (by simp), rfl, rfl, rfl, rfl, rfl⟩)⟩
    | none =>
      by_cases hh : fr.inst.Status.DaemonsetHash = fr.dsHash
      · simp only [hh, ne_eq, not_true_eq_false, if_false] at ho
        subst ho
        exact ⟨rfl, rfl, rfl, rfl, rfl, rfl, rfl,
          Or.inr (Or.inl ⟨hnf', Or.inr hh, rfl, rfl, rfl, rfl, rfl⟩)⟩
      · simp only [hh, ne_eq, not_false_eq_true, if_true] at ho
        obtain ⟨ue, s, hu, hA, hC, hD, hE⟩ := Client.UpdateDaemonSet_eq f.updateDaemonSet
          { found with Spec := fr.ds.Spec }
          { store := c.store
            calls := c.calls ++
              [{ call := Call.Get Kind.DaemonSet
                   { Name := fr.ds.ObjectMeta.Name, Namespace := fr.ds.ObjectMeta.Namespace }
                 err := none }] }
        simp only [hu] at ho
        cases ue with
        | some e =>
          have hs : s = c.store := hE (by simp)
          subst hs
          simp only [] at ho
          subst ho
          refine ⟨rfl, rfl, rfl, rfl, rfl, rfl, rfl,
            Or.inr (Or.inr (Or.inl ⟨rfl, hh, e, ?_, rfl, rfl, rfl, rfl⟩))⟩
          simp
        | none =>
          obtain ⟨se, s2, hs, hD2, hC2, hA2, hE2⟩ := setDaemonsetHash_eq f.statusUpdate fr.inst
            fr.dsHash
            { store := s
              calls := c.calls ++
                [{ call := Call.Get Kind.DaemonSet
                     { Name := fr.ds.ObjectMeta.Name, Namespace := fr.ds.ObjectMeta.Namespace }
                   err := none }] ++
                [{ call := Call.Update (Object.daemonSet { found with Spec := fr.ds.Spec })
                   err := none }] } hh
          simp only [hs] at ho
          subst ho
          refine ⟨rfl, rfl, rfl, rfl, rfl, rfl, ?_,
            Or.inr (Or.inr (Or.inr ⟨rfl, hh, se, ?_, rfl, rfl, rfl, ?_, ?_, ?_⟩))⟩
          · exact hC2.trans hC
          · simp
          · exact hD2.trans (hD rfl)
          · intro h0
            exact (hA2 h0).trans (by rw [hA])
          · intro h0
            rw [hE2 h0]
            exact hA

theorem find?_map_of_invariant {α : Type} (p : α → Bool) (g : α → α) (hg : ∀ a, p (g a) = p a)
    (l : List α) : (l.map g).find? p = (l.find? p).map g := by
  induction l with
  | nil => rfl
  | cons a l ih =>
    simp only [List.map_cons, List.find?_cons, hg]
    cases p a <;> simp [ih]

theorem Reconcile_reaches_daemonSet (env : Env) (f : Faults) (req : NamespacedName) (w : World)
    (key : NamespacedName) (ge : Option Error)
    (hget : { call := Call.Get Kind.DaemonSet key, err := ge } ∈ (Reconcile env f req w).calls) :
    ∃ aliases fr c,
      Reconcile env f req w = daemonSetStep f aliases fr c ∧
      w.store.agent req = some fr.inst ∧
      c.store.agents = w.store.agents ∧ c.store.daemonSets = w.store.daemonSets ∧
      (∀ r ∈ c.calls, r.call.isPrep = true) ∧
      fr.ds.Spec
        = (newDaemonset aliases fr.inst fr.inst.ObjectMeta.Name fr.configMapHash).Spec ∧
      env.ObjectHashDaemonSet
        (newDaemonset aliases fr.inst fr.inst.ObjectMeta.Name fr.configMapHash) = .ok fr.dsHash := by
  rcases Reconcile_head env f req w with ⟨hprep, -⟩ | ⟨aliases, fr, c, e2, e3, cw, heq, -, hinst, hA, hD, hcalls, hcm⟩
  · have := hprep _ hget
    simp [Call.isPrep] at this
  · have hprep : ∀ r ∈ c.calls, r.call.isPrep = true := by
      intro r hr
      rw [hcalls] at hr
      rcases hcm with ⟨-, hcw, -⟩ | ⟨-, hcw, -⟩ <;> subst hcw <;> simp at hr <;>
        rcases hr with rfl | rfl | rfl | rfl <;> simp [Call.isPrep]
    rw [heq] at hget ⊢
    rcases fingerprintStep_cases env f aliases fr c with ⟨hc, -⟩ | ⟨h, dh, meta, hh, hd, hr, hstep⟩
    · rw [hc] at hget
      have := hprep _ hget
      simp [Call.isPrep] at this
    · exact ⟨aliases, _, c, hstep, hinst, hA, hD, hprep, rfl, hd⟩

theorem Store.agent_key (s : Store) (key : NamespacedName) (a : NeutronSriovAgent)
    (h : s.agent key = some a) : a.ObjectMeta.key = key := by
  have := List.find?_some h
  simpa using this

theorem Store.daemonSet_key (s : Store) (key : NamespacedName) (a : DaemonSet)
    (h : s.daemonSet key = some a) : a.ObjectMeta.key = key := by
  have := List.find?_some h
  simpa using this

theorem Store.agent_statusUpdate (s s2 : Store) (key : NamespacedName) (a : NeutronSriovAgent)
    (hash : String) (h : s.agent key = some a)
    (h2 : s2.agents = s.agents.map
      (fun o => if o.ObjectMeta.key = a.ObjectMeta.key
        then { o with Status := { DaemonsetHash := hash } } else o)) :
    s2.agent key = some { a with Status := { DaemonsetHash := hash } } := by
  have hk := Store.agent_key s key a h
  unfold Store.agent at h ⊢
  rw [h2, find?_map_of_invariant, h]
  · simp [hk]
  · intro o
    by_cases ho : o.ObjectMeta.key = a.ObjectMeta.key <;> simp [ho]

theorem Store.daemonSet_update (s s2 : Store) (key : NamespacedName) (a b : DaemonSet)
    (h : s.daemonSet key = some a) (hb : b.ObjectMeta = a.ObjectMeta)
    (h2 : s2.daemonSets = s.daemonSets.map
      (fun o => if o.ObjectMeta.key = a.ObjectMeta.key then b else o)) :
    s2.daemonSet key = some b := by
  have hk := Store.daemonSet_key s key a h
  unfold Store.daemonSet at h ⊢
  rw [h2, find?_map_of_invariant, h]
  · simp [hk]
  · intro o
    by_cases ho : o.ObjectMeta.key = a.ObjectMeta.key <;> simp [ho, hb]

theorem Store.daemonSet_congr (s s2 : Store) (key : NamespacedName)
    (h : s2.daemonSets = s.daemonSets) : s2.daemonSet key = s.daemonSet key := by
  unfold Store.daemonSet
  rw [h]

theorem Store.agent_congr (s s2 : Store) (key : NamespacedName)
    (h : s2.agents = s.agents) : s2.agent key = s.agent key := by
  unfold Store.agent
  rw [h]

/-- The update path of a pass, shared by the statements about it. -/
theorem Reconcile_update_path (env : Env) (f : Faults) (req : NamespacedName) (w : World)
    (inst : NeutronSriovAgent) (key : NamespacedName) (observed : DaemonSet)
    (hinst : w.store.agent req = some inst)
    (hobs : w.store.daemonSet key = some observed)
    (hget : { call := Call.Get Kind.DaemonSet key, err := none } ∈ (Reconcile env f req w).calls)
    (hhash : inst.Status.DaemonsetHash ≠ (Reconcile env f req w).frame.dsHash)
    (hok : ∀ r ∈ (Reconcile env f req w).calls, r.call.isWrite = true → r.err = none) :
    ∃ pre,
      (Reconcile env f req w).calls
        = pre ++
          [{ call := Call.Get Kind.DaemonSet key, err := none },
           { call := Call.Update
               (Object.daemonSet { observed with Spec := (Reconcile env f req w).frame.ds.Spec })
             err := none },
           { call := Call.StatusUpdate
               (Object.agent
                 { inst with Status.DaemonsetHash := (Reconcile env f req w).frame.dsHash })
             err := none }] ∧
      (∀ r ∈ pre, r.call.isPrep = true) ∧
      (Reconcile env f req w).frame.ds.Spec
        = (newDaemonset (Reconcile env f req w).world.ospHostAliases inst inst.ObjectMeta.Name
            (Reconcile env f req w).frame.configMapHash).Spec ∧
      env.ObjectHashDaemonSet
          (newDaemonset (Reconcile env f req w).world.ospHostAliases inst inst.ObjectMeta.Name
            (Reconcile env f req w).frame.configMapHash)
        = .ok (Reconcile env f req w).frame.dsHash ∧
      (Reconcile env f req w).frame.inst
        = { inst with Status.DaemonsetHash := (Reconcile env f req w).frame.dsHash } ∧
      (Reconcile env f req w).world.store.agent req
        = some { inst with Status := { DaemonsetHash := (Reconcile env f req w).frame.dsHash } } ∧
      (Reconcile env f req w).world.store.daemonSet key
        = some { observed with Spec := (Reconcile env f req w).frame.ds.Spec } ∧
      (Reconcile env f req w).result = { RequeueAfter := Second * 10 } ∧
      (Reconcile env f req w).err = none := by
  obtain ⟨aliases, fr, c, heq, hfr, hA, hD, hprep, hspec, hdh⟩ :=
    Reconcile_reaches_daemonSet env f req w key none hget
  have hi : fr.inst = inst := by
    rw [hinst] at hfr
    exact (Option.some.inj hfr).symm
  rw [heq] at hget hhash hok ⊢
  obtain ⟨ge', observed', hobs', hal, hcm, hfcm, hcmh, hds, hdsh, hcms, hcase⟩ :=
    daemonSetStep_cases f aliases fr c
  have hnotin : ∀ e, ({ call := Call.Get Kind.DaemonSet key, err := e } : CallRecord) ∉ c.calls := by
    intro e hm
    have := hprep _ hm
    simp [Call.isPrep] at this
  rw [hdsh, ← hi] at hhash
  rcases hcase with ⟨hnf, ce, hcalls, -⟩ | ⟨hnf, hor, hcalls, -⟩ |
    ⟨hge, hne, e, hcalls, -⟩ | ⟨hge, hne, se, hcalls, herr, hres, hfi, hDS, hAok, -⟩
  · rw [hcalls] at hget
    simp [hnotin] at hget
    obtain ⟨hk, hg⟩ := hget
    subst hg
    simp at hnf
  · rw [hcalls] at hget
    simp [hnotin] at hget
    obtain ⟨hk, hg⟩ := hget
    subst hg
    rcases hor with h | h
    · exact absurd rfl h
    · exact absurd h hhash
  · have := hok
      { call := Call.Update (Object.daemonSet { observed' with Spec := fr.ds.Spec })
        err := some e } (by rw [hcalls]; simp) (by simp [Call.isWrite])
    simp at this
  · have hse : se = none := by
      have := hok
        { call := Call.StatusUpdate
            (Object.agent { fr.inst with Status.DaemonsetHash := fr.dsHash })
          err := se } (by rw [hcalls]; simp) (by simp [Call.isWrite])
      simpa using this
    subst hse hge
    rw [hcalls] at hget
    simp [hnotin] at hget
    subst hget
    have ho : observed' = observed := by
      have h1 := hobs' rfl
      rw [Store.daemonSet_congr w.store c.store _ hD, hobs] at h1
      exact (Option.some.inj h1).symm
    subst ho
    subst hi
    refine ⟨c.calls, ?_, hprep, ?_, ?_, ?_, ?_, ?_, hres, herr⟩
    · rw [hcalls, hds, hdsh]
    · rw [hds, hal, hcmh]
      exact hspec
    · rw [hal, hcmh, hdsh]
      exact hdh
    · rw [hfi, hdsh]
    · rw [hdsh]
      exact Store.agent_statusUpdate c.store _ req fr.inst fr.dsHash
        (by rw [Store.agent_congr w.store c.store req hA]; exact hfr) (hAok rfl)
    · rw [hds]
      refine Store.daemonSet_update c.store _ _ observed' _ ?_ rfl hDS
      rw [Store.daemonSet_congr w.store c.store _ hD]
      exact hobs

theorem fingerprintStep_tail (env : Env) (f : Faults) (aliases : List HostAlias) (fr : Frame)
    (c : Cluster) :
    ∃ extra,
      (fingerprintStep env f aliases fr c).calls = c.calls ++ extra ∧
      (∀ r ∈ extra, ∀ o, r.call ≠ Call.Create (Object.configMap o) ∧
        r.call ≠ Call.Update (Object.configMap o)) ∧
      (fingerprintStep env f aliases fr c).world.store.configMaps = c.store.configMaps ∧
      (fingerprintStep env f aliases fr c).frame.configMap = fr.configMap ∧
      (fingerprintStep env f aliases fr c).frame.foundConfigMap = fr.foundConfigMap ∧
      (∀ h, env.ObjectHashConfigMap fr.configMap = .ok h →
        (fingerprintStep env f aliases fr c).frame.configMapHash = h) := by
  rcases fingerprintStep_cases env f aliases fr c with
    ⟨hc, hs, -, -, -, hcm, hfcm, hh⟩ | ⟨h, dh, meta, hh, hd, hr, hstep⟩
  · exact ⟨[], by simp [hc], by simp, by rw [hs], hcm, hfcm, hh⟩
  · rw [hstep]
    obtain ⟨ge, observed, -, -, hcm, hfcm, hcmh, -, -, hcms, hcase⟩ :=
      daemonSetStep_cases f aliases
        { fr with
          configMapHash := h
          ds := { newDaemonset aliases fr.inst fr.inst.ObjectMeta.Name h with ObjectMeta := meta }
          dsHash := dh } c
    have hlast : ∀ h', env.ObjectHashConfigMap fr.configMap = .ok h' →
        (daemonSetStep f aliases
          { fr with
            configMapHash := h
            ds := { newDaemonset aliases fr.inst fr.inst.ObjectMeta.Name h with ObjectMeta := meta }
            dsHash := dh } c).frame.configMapHash = h' := by
      intro h' hh'
      rw [hh] at hh'
      cases hh'
      exact hcmh
    rcases hcase with ⟨-, ce, hcalls, -⟩ | ⟨-, -, hcalls, -⟩ | ⟨-, -, e, hcalls, -⟩ |
      ⟨-, -, se, hcalls, -⟩
    all_goals
      refine ⟨_, hcalls, ?_, hcms, hcm, hfcm, hlast⟩
      intro r hr o
      simp at hr
      rcases hr with rfl | rfl | rfl <;> simp



/-! ## Properties of a reconciliation pass -/

/-- C1 (the code departs from it): at the spec's scenario, a first pass over a
store without the DaemonSet creates it without error and issues no status
write, so the status fingerprint, in memory and as stored, is still empty at
the end of the pass, while the fingerprint computed in the pass is
`sampleHash`. -/
theorem create_leaves_fingerprint_unset :
    sampleWorldFresh.store.daemonSet sampleKey = none ∧
    (Reconcile sampleEnv {} sampleKey sampleWorldFresh).calls.map
        (fun r => (r.call.verb, IsNotFound r.err, r.err.isSome))
      = [("get agent", false, false), ("get configmap", false, false),
         ("get configmap", true, true), ("create configmap", false, false),
         ("get daemonset", true, true), ("create daemonset", false, false)] ∧
    (Reconcile sampleEnv {} sampleKey sampleWorldFresh).err = none ∧
    (Reconcile sampleEnv {} sampleKey sampleWorldFresh).world.store.daemonSet sampleKey
      = some (Reconcile sampleEnv {} sampleKey sampleWorldFresh).frame.ds ∧
    (Reconcile sampleEnv {} sampleKey sampleWorldFresh).frame.dsHash = sampleHash ∧
    (Reconcile sampleEnv {} sampleKey sampleWorldFresh).frame.inst.Status.DaemonsetHash = "" ∧
    ((Reconcile sampleEnv {} sampleKey sampleWorldFresh).world.store.agent sampleKey).map
      (fun a => a.Status.DaemonsetHash) = some "" := by
  decide

/-- C2 (the code departs from it): at the spec's scenario, with no fault and no
outside change, the second of two passes in succession issues two writes, an
`Update` of the DaemonSet and a `Status().Update` of the agent, and moves the
stored status fingerprint from empty to `sampleHash`. -/
theorem second_pass_writes_after_create :
    (Reconcile sampleEnv {} sampleKey sampleWorldFresh).calls.map
        (fun r => (r.call.verb, IsNotFound r.err, r.err.isSome))
      = [("get agent", false, false), ("get configmap", false, false),
         ("get configmap", true, true), ("create configmap", false, false),
         ("get daemonset", true, true), ("create daemonset", false, false)] ∧
    (Reconcile sampleEnv {} sampleKey
        (Reconcile sampleEnv {} sampleKey sampleWorldFresh).world).calls.map
        (fun r => (r.call.verb, r.err))
      = [("get agent", none), ("get configmap", none), ("get configmap", none),
         ("get daemonset", none), ("update daemonset", none), ("status update", none)] ∧
    ((Reconcile sampleEnv {} sampleKey
        (Reconcile sampleEnv {} sampleKey sampleWorldFresh).world).calls.filter
      (fun r => r.call.isWrite)).length = 2 ∧
    ((Reconcile sampleEnv {} sampleKey sampleWorldFresh).world.store.agent sampleKey).map
      (fun a => a.Status.DaemonsetHash) = some "" ∧
    ((Reconcile sampleEnv {} sampleKey
        (Reconcile sampleEnv {} sampleKey sampleWorldFresh).world).world.store.agent
      sampleKey).map (fun a => a.Status.DaemonsetHash) = some sampleHash := by
  decide

/-- C3 as stated fails: with the agent, `common-config` and a tampered
DaemonSet stored, no fault, and a status fingerprint equal to the freshly
computed one, the pass leaves the stored DaemonSet's spec different from the
built spec. -/
theorem drift_unnoticed_when_fingerprint_matches :
    (sampleWorldTampered sampleHash).store.agent sampleKey = some (sampleAgent sampleHash) ∧
    (sampleWorldTampered sampleHash).store.configMap
      { Name := CommonConfigMAP, Namespace := "openstack" } = some sampleCommonConfig ∧
    (sampleWorldTampered sampleHash).store.daemonSet sampleKey = some sampleTamperedDaemonSet ∧
    (Reconcile sampleEnv {} sampleKey (sampleWorldTampered sampleHash)).frame.ds.Spec
      = (newDaemonset [{ IP := "10.0.0.5", Hostnames := ["controller-0.tenant"] }]
          (sampleAgent sampleHash) "agent1" "cm:agent1::uid-1;").Spec ∧
    sampleTamperedDaemonSet.Spec
      ≠ (Reconcile sampleEnv {} sampleKey (sampleWorldTampered sampleHash)).frame.ds.Spec ∧
    (∀ r ∈ (Reconcile sampleEnv {} sampleKey (sampleWorldTampered sampleHash)).calls,
      r.err = none) ∧
    ¬ (((Reconcile sampleEnv {} sampleKey (sampleWorldTampered sampleHash)).world.store.daemonSet
          sampleKey).map (fun d => d.Spec)
        = some (Reconcile sampleEnv {} sampleKey (sampleWorldTampered sampleHash)).frame.ds.Spec) := by
  decide

/-- C3 (amended): when the agent is stored, the stored DaemonSet has a spec
different from the built one, the pass gets the DaemonSet, the agent's status
fingerprint differs from the fingerprint computed in the pass and every write
of the pass succeeds, the pass ends with the stored DaemonSet's spec equal to
the spec `newDaemonset` builds and the stored status fingerprint equal to the
fingerprint of the built DaemonSet. -/
theorem drift_convergence (env : Env) (f : Faults) (req : NamespacedName) (w : World)
    (inst : NeutronSriovAgent) (key : NamespacedName) (observed : DaemonSet)
    (hinst : w.store.agent req = some inst)
    (hobs : w.store.daemonSet key = some observed)
    (hget : { call := Call.Get Kind.DaemonSet key, err := none } ∈ (Reconcile env f req w).calls)
    (_hdrift : observed.Spec ≠ (Reconcile env f req w).frame.ds.Spec)
    (hhash : inst.Status.DaemonsetHash ≠ (Reconcile env f req w).frame.dsHash)
    (hok : ∀ r ∈ (Reconcile env f req w).calls, r.call.isWrite = true → r.err = none) :
    ((Reconcile env f req w).world.store.daemonSet key).map (fun d => d.Spec)
      = some (newDaemonset (Reconcile env f req w).world.ospHostAliases inst inst.ObjectMeta.Name
          (Reconcile env f req w).frame.configMapHash).Spec ∧
    env.ObjectHashDaemonSet
        (newDaemonset (Reconcile env f req w).world.ospHostAliases inst inst.ObjectMeta.Name
          (Reconcile env f req w).frame.configMapHash)
      = .ok (Reconcile env f req w).frame.dsHash ∧
    ((Reconcile env f req w).world.store.agent req).map (fun a => a.Status.DaemonsetHash)
      = some (Reconcile env f req w).frame.dsHash ∧
    (Reconcile env f req w).frame.inst.Status.DaemonsetHash
      = (Reconcile env f req w).frame.dsHash := by
  obtain ⟨pre, -, -, hspec, hdh, hfi, hag, hds, -, -⟩ :=
    Reconcile_update_path env f req w inst key observed hinst hobs hget hhash hok
  refine ⟨?_, hdh, ?_, ?_⟩
  · rw [hds, ← hspec]
    rfl
  · rw [hag]
    rfl
  · rw [hfi]

/-- Witness of `drift_convergence`: the tampered DaemonSet with a stale status
fingerprint. -/
theorem drift_convergence_witness :
    ((Reconcile sampleEnv {} sampleKey (sampleWorldTampered "old")).world.store.daemonSet
        sampleKey).map (fun d => d.Spec)
      = some (newDaemonset
          (Reconcile sampleEnv {} sampleKey (sampleWorldTampered "old")).world.ospHostAliases
          (sampleAgent "old") "agent1"
          (Reconcile sampleEnv {} sampleKey (sampleWorldTampered "old")).frame.configMapHash).Spec ∧
    ((Reconcile sampleEnv {} sampleKey (sampleWorldTampered "old")).world.store.agent
        sampleKey).map (fun a => a.Status.DaemonsetHash) = some sampleHash :=
  have h := drift_convergence sampleEnv {} sampleKey (sampleWorldTampered "old")
    (sampleAgent "old") sampleKey sampleTamperedDaemonSet (by decide) (by decide) (by decide)
    (by decide) (by decide) (by decide)
  ⟨h.1, h.2.2.1⟩

/-- C4: in a pass that finds the DaemonSet while the agent's status fingerprint
differs from the fingerprint computed in the pass, and whose writes succeed,
the calls end with the `Get` of the DaemonSet, one `Update` of the observed
DaemonSet with only its spec replaced by the built spec, and one
`Status().Update` of the agent carrying the new fingerprint; all earlier calls
are reads of the agent or of ConfigMaps or the creation of the ConfigMap; the
in-memory and the stored status fingerprint are the new one; the pass returns
`RequeueAfter` of ten seconds and a nil error. -/
theorem reconcile_update_on_fingerprint_change (env : Env) (f : Faults) (req : NamespacedName)
    (w : World) (inst : NeutronSriovAgent) (key : NamespacedName) (observed : DaemonSet)
    (hinst : w.store.agent req = some inst)
    (hobs : w.store.daemonSet key = some observed)
    (hget : { call := Call.Get Kind.DaemonSet key, err := none } ∈ (Reconcile env f req w).calls)
    (hhash : inst.Status.DaemonsetHash ≠ (Reconcile env f req w).frame.dsHash)
    (hok : ∀ r ∈ (Reconcile env f req w).calls, r.call.isWrite = true → r.err = none) :
    ∃ pre,
      (Reconcile env f req w).calls
        = pre ++
          [{ call := Call.Get Kind.DaemonSet key, err := none },
           { call := Call.Update
               (Object.daemonSet
                 { observed with
                   Spec := (newDaemonset (Reconcile env f req w).world.ospHostAliases inst
                     inst.ObjectMeta.Name (Reconcile env f req w).frame.configMapHash).Spec })
             err := none },
           { call := Call.StatusUpdate
               (Object.agent
                 { inst with Status.DaemonsetHash := (Reconcile env f req w).frame.dsHash })
             err := none }] ∧
      (∀ r ∈ pre, r.call.isPrep = true) ∧
      (Reconcile env f req w).frame.inst.Status.DaemonsetHash
        = (Reconcile env f req w).frame.dsHash ∧
      ((Reconcile env f req w).world.store.agent req).map (fun a => a.Status.DaemonsetHash)
        = some (Reconcile env f req w).frame.dsHash ∧
      (Reconcile env f req w).result = { RequeueAfter := Second * 10 } ∧
      (Reconcile env f req w).result.RequeueAfter = 10000000000 ∧
      (Reconcile env f req w).err = none := by
  obtain ⟨pre, hcalls, hprep, hspec, -, hfi, hag, -, hres, herr⟩ :=
    Reconcile_update_path env f req w inst key observed hinst hobs hget hhash hok
  refine ⟨pre, ?_, hprep, ?_, ?_, hres, ?_, herr⟩
  · rw [← hspec]
    exact hcalls
  · rw [hfi]
  · rw [hag]
    rfl
  · rw [hres]
    rfl

/-- Witness of `reconcile_update_on_fingerprint_change`: the tampered DaemonSet
with a stale status fingerprint. -/
theorem reconcile_update_on_fingerprint_change_witness :
    (Reconcile sampleEnv {} sampleKey (sampleWorldTampered "old")).result.RequeueAfter
      = 10000000000 ∧
    (Reconcile sampleEnv {} sampleKey (sampleWorldTampered "old")).err = none ∧
    (Reconcile sampleEnv {} sampleKey (sampleWorldTampered "old")).frame.inst.Status.DaemonsetHash
      = (Reconcile sampleEnv {} sampleKey (sampleWorldTampered "old")).frame.dsHash := by
  obtain ⟨_, -, -, hfi, -, -, hra, herr⟩ :=
    reconcile_update_on_fingerprint_change sampleEnv {} sampleKey (sampleWorldTampered "old")
      (sampleAgent "old") sampleKey sampleTamperedDaemonSet (by decide) (by decide) (by decide)
      (by decide) (by decide)
  exact ⟨hra, herr, hfi⟩

/-- C5 (the code departs from it): with the DaemonSet stored and a stale status
fingerprint, the `Update` of the DaemonSet succeeds, the `Status().Update`
fails with a conflict, and `Reconcile` still returns a nil error, with
`RequeueAfter` of ten seconds; the stored fingerprint stays stale. -/
theorem status_update_failure_dropped :
    (Reconcile sampleEnv { statusUpdate := some sampleConflict } sampleKey
        (sampleWorldTampered "old")).calls.map (fun r => (r.call.verb, r.err))
      = [("get agent", none), ("get configmap", none), ("get configmap", none),
         ("get daemonset", none), ("update daemonset", none),
         ("status update", some sampleConflict)] ∧
    (Reconcile sampleEnv { statusUpdate := some sampleConflict } sampleKey
        (sampleWorldTampered "old")).err = none ∧
    (Reconcile sampleEnv { statusUpdate := some sampleConflict } sampleKey
        (sampleWorldTampered "old")).result = { RequeueAfter := Second * 10 } ∧
    ((Reconcile sampleEnv { statusUpdate := some sampleConflict } sampleKey
        (sampleWorldTampered "old")).world.store.agent sampleKey).map
      (fun a => a.Status.DaemonsetHash) = some "old" := by
  decide

/-- C6 (the code departs from it): the `Get` of the agent's ConfigMap fails with
a forbidden error, which is not a not-found error; the pass goes on, creates
the DaemonSet after the failed call and returns a nil error. -/
theorem configMap_get_failure_swallowed :
    IsNotFound (some sampleForbidden) = false ∧
    (Reconcile sampleEnv { getConfigMap := some sampleForbidden } sampleKey
        sampleWorldFresh).calls.map (fun r => (r.call.verb, r.err))
      = [("get agent", none), ("get configmap", none),
         ("get configmap", some sampleForbidden),
         ("get daemonset", some (notFoundError sampleKey)), ("create daemonset", none)] ∧
    (Reconcile sampleEnv { getConfigMap := some sampleForbidden } sampleKey
        sampleWorldFresh).calls[2]?
      = some { call := Call.Get Kind.ConfigMap sampleKey, err := some sampleForbidden } ∧
    (Reconcile sampleEnv { getConfigMap := some sampleForbidden } sampleKey
        sampleWorldFresh).calls[4]?
      = some { call := Call.Create
                 (Object.daemonSet
                   (Reconcile sampleEnv { getConfigMap := some sampleForbidden } sampleKey
                     sampleWorldFresh).frame.ds)
               err := none } ∧
    (Reconcile sampleEnv { getConfigMap := some sampleForbidden } sampleKey
        sampleWorldFresh).err = none ∧
    (Reconcile sampleEnv { getConfigMap := some sampleForbidden } sampleKey
        sampleWorldFresh).world.store.daemonSet sampleKey ≠ none := by
  decide

/-- C7: when the `Get` of the agent fails with error `e`, the pass returns an
empty result; the returned error is nil if `e` is a not-found error and `e`
otherwise; the failed `Get` is the only client call of the pass and the world
is unchanged. -/
theorem reconcile_load_failure (env : Env) (f : Faults) (req : NamespacedName) (w : World)
    (e : Error)
    (hget : (Client.GetAgent f.getInstance req { store := w.store }).2.1 = some e) :
    (Reconcile env f req w).result = {} ∧
    (Reconcile env f req w).err = (if IsNotFound (some e) then none else some e) ∧
    (Reconcile env f req w).calls
      = [{ call := Call.Get Kind.NeutronSriovAgent req, err := some e }] ∧
    (Reconcile env f req w).world = w := by
  unfold Reconcile
  unfold Client.GetAgent at hget ⊢
  cases hf : f.getInstance with
  | some e' =>
    simp only [hf] at hget ⊢
    cases hget
    by_cases hnf : IsNotFound (some e) = true <;> simp [hnf, Cluster.record]
  | none =>
    simp only [hf] at hget ⊢
    cases hs : w.store.agent req with
    | some o => simp [hs] at hget
    | none =>
      simp only [hs] at hget ⊢
      cases hget
      by_cases hnf : IsNotFound (some (notFoundError req)) = true <;> simp [hnf, Cluster.record]

/-- Witness of `reconcile_load_failure`: a deleted agent (not found, nil error)
and an API failure (the error is returned). -/
theorem reconcile_load_failure_witness :
    ((Reconcile sampleEnv {} sampleKey {}).result = {} ∧
      (Reconcile sampleEnv {} sampleKey {}).err = none ∧
      (Reconcile sampleEnv {} sampleKey {}).calls.map (fun r => r.call.verb) = ["get agent"]) ∧
    ((Reconcile sampleEnv { getInstance := some sampleConflict } sampleKey
        sampleWorldFresh).result = {} ∧
      (Reconcile sampleEnv { getInstance := some sampleConflict } sampleKey
        sampleWorldFresh).err = some sampleConflict) :=
  have h1 := reconcile_load_failure sampleEnv {} sampleKey {} (notFoundError sampleKey)
    (by decide)
  have h2 := reconcile_load_failure sampleEnv { getInstance := some sampleConflict } sampleKey
    sampleWorldFresh sampleConflict (by decide)
  ⟨⟨h1.1, h1.2.1, by rw [h1.2.2.1]; rfl⟩, ⟨h2.1, h2.2.1⟩⟩

/-- C8: when the agent is loaded and the `Get` of the ConfigMap `common-config`
in the agent's namespace answers a not-found error `e`, the pass returns `e`
with an empty result; its only calls are the two `Get`s and the world is
unchanged. -/
theorem reconcile_missing_common_config (env : Env) (f : Faults) (req : NamespacedName)
    (w : World) (inst : NeutronSriovAgent) (c : Cluster) (e : Error)
    (hload : Client.GetAgent f.getInstance req { store := w.store } = (inst, none, c))
    (hcc : (Client.GetConfigMap f.getCommonConfig
        { Name := CommonConfigMAP, Namespace := inst.ObjectMeta.Namespace } c).2.1 = some e)
    (hnf : IsNotFound (some e) = true) :
    (Reconcile env f req w).result = {} ∧
    (Reconcile env f req w).err = some e ∧
    (Reconcile env f req w).calls
      = [{ call := Call.Get Kind.NeutronSriovAgent req, err := none },
         { call := Call.Get Kind.ConfigMap
             { Name := CommonConfigMAP, Namespace := inst.ObjectMeta.Namespace }
           err := some e }] ∧
    (Reconcile env f req w).world = w := by
  obtain ⟨inst', e1, h1, -⟩ := Client.GetAgent_eq f.getInstance req { store := w.store }
  rw [hload] at h1
  simp only [List.nil_append, Prod.mk.injEq] at h1
  obtain ⟨-, he1, hc⟩ := h1
  subst he1
  obtain ⟨cc, e2, h2, -⟩ := Client.GetConfigMap_eq f.getCommonConfig
    { Name := CommonConfigMAP, Namespace := inst.ObjectMeta.Namespace } c
  rw [h2] at hcc
  simp only at hcc
  subst hcc
  subst hc
  simp only [List.cons_append, List.nil_append] at h2
  unfold Reconcile
  simp only [hload, h2, isNotFound_guard]
  simp only [hnf, if_true]
  simp

/-- Witness of `reconcile_missing_common_config`: the agent is stored,
`common-config` is not. -/
theorem reconcile_missing_common_config_witness :
    (Reconcile sampleEnv {} sampleKey sampleWorldNoCommon).result = {} ∧
    (Reconcile sampleEnv {} sampleKey sampleWorldNoCommon).err
      = some (notFoundError { Name := "common-config", Namespace := "openstack" }) ∧
    (Reconcile sampleEnv {} sampleKey sampleWorldNoCommon).world = sampleWorldNoCommon :=
  have h := reconcile_missing_common_config sampleEnv {} sampleKey sampleWorldNoCommon
    (sampleAgent "")
    { store := sampleWorldNoCommon.store
      calls := [{ call := Call.Get Kind.NeutronSriovAgent sampleKey, err := none }] }
    (notFoundError { Name := "common-config", Namespace := "openstack" })
    (by decide) (by decide) (by decide)
  ⟨h.1, h.2.1, h.2.2.2⟩

/-- C9: when the third call of a pass, the `Get` of the agent's ConfigMap (it
follows the `Get`s of the agent and of `common-config`), is answered without
error, the ConfigMap is in the store, the pass issues no `Create` and no
`Update` of any ConfigMap, the stored ConfigMaps are the same after the pass,
and the in-memory ConfigMap, the one that is fingerprinted, carries the
observed data. -/
theorem reconcile_preserves_configMap (env : Env) (f : Faults) (req : NamespacedName) (w : World)
    (key : NamespacedName)
    (hget : (Reconcile env f req w).calls[2]?
      = some { call := Call.Get Kind.ConfigMap key, err := none }) :
    ∃ observed,
      w.store.configMap key = some observed ∧
      (∀ r ∈ (Reconcile env f req w).calls, ∀ o,
        r.call ≠ Call.Create (Object.configMap o) ∧ r.call ≠ Call.Update (Object.configMap o)) ∧
      (Reconcile env f req w).world.store.configMaps = w.store.configMaps ∧
      (Reconcile env f req w).world.store.configMap key = some observed ∧
      (Reconcile env f req w).frame.foundConfigMap = observed ∧
      (Reconcile env f req w).frame.configMap.Data = observed.Data ∧
      (∀ h, env.ObjectHashConfigMap (Reconcile env f req w).frame.configMap = .ok h →
        (Reconcile env f req w).frame.configMapHash = h) := by
  rcases Reconcile_head env f req w with
    ⟨-, h2⟩ | ⟨aliases, fr, c, e2, e3, cw, heq, -, hinst, hA, hD, hcalls, hcm⟩
  · exact absurd rfl (h2 _ hget)
  · obtain ⟨extra, hext, hnocm, hcms, hfcm, hffound, hhash⟩ := fingerprintStep_tail env f aliases fr c
    rw [heq] at hget ⊢
    rw [hext, hcalls] at hget
    simp at hget
    obtain ⟨hk, he3⟩ := hget
    subst he3
    rcases hcm with ⟨hnf, -⟩ | ⟨-, hcw, hst, hdata, hfound⟩
    · simp at hnf
    · subst hcw
      have hfound' := hfound rfl
      rw [hk] at hfound'
      refine ⟨fr.foundConfigMap, hfound', ?_, ?_, ?_, hffound, ?_, ?_⟩
      · intro r hr o
        rw [hext, hcalls] at hr
        simp at hr
        rcases hr with rfl | rfl | rfl | hr
        · simp
        · simp
        · simp
        · exact hnocm r hr o
      · rw [hcms, hst]
      · unfold Store.configMap
        rw [hcms, hst]
        exact hfound'
      · rw [hfcm]
        exact hdata
      · rw [hfcm]
        exact hhash

/-- Witness of `reconcile_preserves_configMap`: the agent's ConfigMap is stored
with seeded data, which differs from the built (empty) data. -/
theorem reconcile_preserves_configMap_witness :
    (neutronsriovagent.ConfigMap (sampleAgent "") "agent1").Data ≠ sampleSeededConfigMap.Data ∧
    (Reconcile sampleEnv {} sampleKey sampleWorldSeeded).world.store.configMap sampleKey
      = some sampleSeededConfigMap ∧
    (Reconcile sampleEnv {} sampleKey sampleWorldSeeded).frame.configMap.Data
      = [("neutron.conf", "[DEFAULT]")] := by
  obtain ⟨observed, hobs, -, -, hafter, -, hdata, -⟩ :=
    reconcile_preserves_configMap sampleEnv {} sampleKey sampleWorldSeeded sampleKey (by decide)
  have h2 : sampleWorldSeeded.store.configMap sampleKey = some sampleSeededConfigMap := by decide
  rw [h2] at hobs
  have h3 : observed = sampleSeededConfigMap := (Option.some.inj hobs).symm
  subst h3
  exact ⟨by decide, hafter, hdata⟩

/-- C10: in a pass that reaches the `Get` of the DaemonSet, (a) if the answer
is a not-found error, the calls end with that `Get` and one `Create` of the
built DaemonSet, all earlier calls being reads of the agent or of ConfigMaps
or the creation of the ConfigMap (so no `Update` and no status write), and if
the `Create` succeeds the pass returns an empty result and a nil error; (b) if
the DaemonSet is found and the agent's status fingerprint equals the
fingerprint computed in the pass, the `Get` is the last call (no `Create` of
the DaemonSet, no `Update`, no status write) and the pass returns an empty
result and a nil error. -/
theorem reconcile_workload_without_drift (env : Env) (f : Faults) (req : NamespacedName)
    (w : World) (inst : NeutronSriovAgent) (key : NamespacedName) (ge : Option Error)
    (hinst : w.store.agent req = some inst)
    (hget : { call := Call.Get Kind.DaemonSet key, err := ge } ∈ (Reconcile env f req w).calls) :
    (IsNotFound ge = true →
      ∃ pre ce,
        (Reconcile env f req w).calls
          = pre ++ [{ call := Call.Get Kind.DaemonSet key, err := ge },
                    { call := Call.Create (Object.daemonSet (Reconcile env f req w).frame.ds)
                      err := ce }] ∧
        (∀ r ∈ pre, r.call.isPrep = true) ∧
        (Reconcile env f req w).frame.ds.Spec
          = (newDaemonset (Reconcile env f req w).world.ospHostAliases inst inst.ObjectMeta.Name
              (Reconcile env f req w).frame.configMapHash).Spec ∧
        (ce = none →
          (Reconcile env f req w).result = {} ∧ (Reconcile env f req w).err = none)) ∧
    (ge = none → inst.Status.DaemonsetHash = (Reconcile env f req w).frame.dsHash →
      ∃ pre,
        (Reconcile env f req w).calls
          = pre ++ [{ call := Call.Get Kind.DaemonSet key, err := none }] ∧
        (∀ r ∈ pre, r.call.isPrep = true) ∧
        (Reconcile env f req w).result = {} ∧ (Reconcile env f req w).err = none) := by
  obtain ⟨aliases, fr, c, heq, hfr, hA, hD, hprep, hspec, hdh⟩ :=
    Reconcile_reaches_daemonSet env f req w key ge hget
  have hi : fr.inst = inst := by
    rw [hinst] at hfr
    exact (Option.some.inj hfr).symm
  rw [heq] at hget ⊢
  obtain ⟨ge', observed, hobs, hal, hcm, hfcm, hcmh, hds, hdsh, hcms, hcase⟩ :=
    daemonSetStep_cases f aliases fr c
  have hnotin : ∀ e, ({ call := Call.Get Kind.DaemonSet key, err := e } : CallRecord) ∉ c.calls := by
    intro e hm
    have := hprep _ hm
    simp [Call.isPrep] at this
  rcases hcase with ⟨hnf, ce, hcalls, herr, hres, hfi, -, -⟩ | ⟨hnf, hor, hcalls, herr, hres, hfi, -⟩ |
    ⟨hge, hne, e, hcalls, herr, hres, hfi, -⟩ | ⟨hge, hne, se, hcalls, herr, hres, hfi, -⟩
  · rw [hcalls] at hget
    simp [hnotin] at hget
    obtain ⟨hk, hg⟩ := hget
    subst hk hg
    refine ⟨fun _ => ⟨c.calls, ce, ?_, hprep, ?_, ?_⟩, ?_⟩
    · rw [hcalls, hds]
    · rw [hds, hal, hcmh, ← hi]
      exact hspec
    · intro hce
      rw [herr, hres]
      exact ⟨rfl, hce⟩
    · intro hg
      rw [hg] at hnf
      simp at hnf
  · rw [hcalls] at hget
    simp [hnotin] at hget
    obtain ⟨hk, hg⟩ := hget
    subst hk hg
    refine ⟨fun h => ?_, fun hg _ => ⟨c.calls, ?_, hprep, hres, ?_⟩⟩
    · rw [h] at hnf
      simp at hnf
    · rw [hcalls, hg]
    · rw [herr, hg]
  · rw [hcalls] at hget
    simp [hnotin] at hget
    obtain ⟨hk, hg⟩ := hget
    subst hk hg
    refine ⟨fun h => by simp at h, fun _ hh => ?_⟩
    rw [hdsh, ← hi] at hh
    exact absurd hh hne
  · rw [hcalls] at hget
    simp [hnotin] at hget
    obtain ⟨hk, hg⟩ := hget
    subst hk hg
    refine ⟨fun h => by simp at h, fun _ hh => ?_⟩
    rw [hdsh, ← hi] at hh
    exact absurd hh hne

/-- Witness of `reconcile_workload_without_drift`: a store without the
DaemonSet (a), and a store with the DaemonSet and the current fingerprint
(b). -/
theorem reconcile_workload_without_drift_witness :
    ((Reconcile sampleEnv {} sampleKey sampleWorldFresh).calls.map (fun r => r.call.verb)
        = ["get agent", "get configmap", "get configmap", "create configmap", "get daemonset",
           "create daemonset"] ∧
      (Reconcile sampleEnv {} sampleKey sampleWorldFresh).result = {} ∧
      (Reconcile sampleEnv {} sampleKey sampleWorldFresh).err = none) ∧
    ((Reconcile sampleEnv {} sampleKey (sampleWorldTampered sampleHash)).calls.map
        (fun r => r.call.verb)
        = ["get agent", "get configmap", "get configmap", "get daemonset"] ∧
      (Reconcile sampleEnv {} sampleKey (sampleWorldTampered sampleHash)).result = {} ∧
      (Reconcile sampleEnv {} sampleKey (sampleWorldTampered sampleHash)).err = none) := by
  have ha := (reconcile_workload_without_drift sampleEnv {} sampleKey sampleWorldFresh
    (sampleAgent "") sampleKey (some (notFoundError sampleKey)) (by decide) (by decide)).1
    (by decide)
  have hb := (reconcile_workload_without_drift sampleEnv {} sampleKey
    (sampleWorldTampered sampleHash) (sampleAgent sampleHash) sampleKey none (by decide)
    (by decide)).2 rfl (by decide)
  obtain ⟨_, ce, hcalls, -, -, hok⟩ := ha
  obtain ⟨_, -, -, hres, herr⟩ := hb
  have hce : ce = none := by
    have h5 : ∀ r ∈ (Reconcile sampleEnv {} sampleKey sampleWorldFresh).calls,
        r.call.verb = "create daemonset" → r.err = none := by decide
    exact h5
      { call := Call.Create
          (Object.daemonSet (Reconcile sampleEnv {} sampleKey sampleWorldFresh).frame.ds)
        err := ce } (by rw [hcalls]; simp) rfl
  exact ⟨⟨by decide, hok hce⟩, ⟨by decide, hres, herr⟩⟩

/-! ## The builder and the fingerprint -/

/-- C11: for every agent, also one with an empty label or image, the DaemonSet
built by `newDaemonset` has selector labels and pod labels exactly
`daemonset = <name>-daemonset`, node selector exactly `daemon = <label>`, host
networking and host PID on, one init container and one long-running
container, both with the agent's image and a privileged security context, the
variable `CONFIG_HASH` with the given hash in the long-running container, and
exactly seven volumes: host paths `/etc/machine-id`, `/run`, `/lib/modules`,
`/var/run/openvswitch` and `/var/log/containers/neutron` (the last two
`DirectoryOrCreate`), the ConfigMap `cmName` and an empty directory. -/
theorem newDaemonset_postcondition (ospHostAliases : List HostAlias) (cr : NeutronSriovAgent)
    (cmName : String) (configHash : String) :
    (newDaemonset ospHostAliases cr cmName configHash).Spec.Selector
      = some { MatchLabels := [("daemonset", cr.ObjectMeta.Name ++ "-daemonset")] } ∧
    (newDaemonset ospHostAliases cr cmName configHash).Spec.Template.ObjectMeta.Labels
      = [("daemonset", cr.ObjectMeta.Name ++ "-daemonset")] ∧
    (newDaemonset ospHostAliases cr cmName configHash).Spec.Template.Spec.NodeSelector
      = [("daemon", cr.Spec.Label)] ∧
    (newDaemonset ospHostAliases cr cmName configHash).Spec.Template.Spec.HostNetwork = true ∧
    (newDaemonset ospHostAliases cr cmName configHash).Spec.Template.Spec.HostPID = true ∧
    (newDaemonset ospHostAliases cr cmName configHash).Spec.Template.Spec.InitContainers.length
      = 1 ∧
    (newDaemonset ospHostAliases cr cmName configHash).Spec.Template.Spec.Containers.length
      = 1 ∧
    (∀ k ∈ (newDaemonset ospHostAliases cr cmName configHash).Spec.Template.Spec.InitContainers
          ++ (newDaemonset ospHostAliases cr cmName configHash).Spec.Template.Spec.Containers,
      k.Image = cr.Spec.NeutronSriovImage ∧
      k.SecurityContext = some { Privileged := some true }) ∧
    (∀ k ∈ (newDaemonset ospHostAliases cr cmName configHash).Spec.Template.Spec.Containers,
      k.Env.filter (fun e => e.Name = "CONFIG_HASH")
        = [{ Name := "CONFIG_HASH", Value := configHash }]) ∧
    (newDaemonset ospHostAliases cr cmName configHash).Spec.Template.Spec.Volumes.length = 7 ∧
    (newDaemonset ospHostAliases cr cmName configHash).Spec.Template.Spec.Volumes.map
        (fun v => v.VolumeSource)
      = [{ HostPath := some { Path := "/etc/machine-id" } },
         { HostPath := some { Path := "/run" } },
         { HostPath := some { Path := "/lib/modules" } },
         { HostPath := some { Path := "/var/run/openvswitch"
                              PathType := some HostPathType.HostPathDirectoryOrCreate } },
         { HostPath := some { Path := "/var/log/containers/neutron"
                              PathType := some HostPathType.HostPathDirectoryOrCreate } },
         { ConfigMap := some { LocalObjectReference := { Name := cmName }
                               DefaultMode := some 420 } },
         { EmptyDir := some {} }] := by
  refine ⟨rfl, rfl, rfl, rfl, rfl, rfl, rfl, ?_, ?_, rfl, rfl⟩
  · intro k hk
    simp only [newDaemonset, List.foldl, List.nil_append, List.cons_append, List.mem_cons,
      List.mem_singleton, List.not_mem_nil, or_false] at hk
    rcases hk with rfl | rfl <;> exact ⟨rfl, rfl⟩
  · intro k hk
    simp only [newDaemonset, List.foldl, List.nil_append, List.mem_singleton] at hk
    subst hk
    rfl

/-- Witness of `newDaemonset_postcondition` at an agent whose label and image
are empty: the DaemonSet is still built, with an empty node-selector value and
an empty image. -/
theorem newDaemonset_postcondition_witness :
    (newDaemonset [] { ObjectMeta := { Name := "agent1", Namespace := "openstack" } } "agent1"
        "h").Spec.Template.Spec.NodeSelector = [("daemon", "")] ∧
    (newDaemonset [] { ObjectMeta := { Name := "agent1", Namespace := "openstack" } } "agent1"
        "h").Spec.Template.Spec.Containers.map (fun k => k.Image) = [""] ∧
    (newDaemonset [] { ObjectMeta := { Name := "agent1", Namespace := "openstack" } } "agent1"
        "h").Spec.Template.Spec.Volumes.length = 7 :=
  have h := newDaemonset_postcondition []
    { ObjectMeta := { Name := "agent1", Namespace := "openstack" } } "agent1" "h"
  ⟨h.2.2.1, by decide, h.2.2.2.2.2.2.2.2.2.1⟩

theorem newDaemonset_congr (ospHostAliases : List HostAlias) (cr cr2 : NeutronSriovAgent)
    (cmName : String) (configHash : String)
    (hns : cr.ObjectMeta.Namespace = cr2.ObjectMeta.Namespace)
    (hname : cr.ObjectMeta.Name = cr2.ObjectMeta.Name)
    (hspec : cr.Spec = cr2.Spec) :
    newDaemonset ospHostAliases cr cmName configHash
      = newDaemonset ospHostAliases cr2 cmName configHash := by
  unfold newDaemonset
  simp only [hns, hname, hspec]

theorem Reconcile_dsHash_eq (env : Env) (f : Faults) (req : NamespacedName) (w : World)
    (inst : NeutronSriovAgent) (key : NamespacedName) (ge : Option Error)
    (hinst : w.store.agent req = some inst)
    (hget : { call := Call.Get Kind.DaemonSet key, err := ge } ∈ (Reconcile env f req w).calls) :
    env.ObjectHashDaemonSet
        (newDaemonset (Reconcile env f req w).world.ospHostAliases inst inst.ObjectMeta.Name
          (Reconcile env f req w).frame.configMapHash)
      = .ok (Reconcile env f req w).frame.dsHash := by
  obtain ⟨aliases, fr, c, heq, hfr, -, -, -, -, hdh⟩ :=
    Reconcile_reaches_daemonSet env f req w key ge hget
  have hi : fr.inst = inst := by
    rw [hinst] at hfr
    exact (Option.some.inj hfr).symm
  obtain ⟨-, -, -, hal, -, -, hcmh, -, hdsh, -⟩ := daemonSetStep_cases f aliases fr c
  rw [heq, hal, hcmh, hdsh, ← hi]
  exact hdh

/-- C12 as stated fails: two passes over agents with the same name, namespace,
label and image, the same host aliases and the same ConfigMap data, whose
UIDs differ, compute different fingerprints, because the ConfigMap is
fingerprinted with its owner reference and that fingerprint is embedded in the
DaemonSet. -/
theorem dsHash_depends_on_owner_uid :
    sampleWorldFresh.store.agent sampleKey = some (sampleAgent "") ∧
    sampleWorldOtherOwner.store.agent sampleKey = some sampleAgentOtherOwner ∧
    (sampleAgent "").ObjectMeta.Name = sampleAgentOtherOwner.ObjectMeta.Name ∧
    (sampleAgent "").ObjectMeta.Namespace = sampleAgentOtherOwner.ObjectMeta.Namespace ∧
    (sampleAgent "").Spec = sampleAgentOtherOwner.Spec ∧
    (sampleAgent "").ObjectMeta.UID ≠ sampleAgentOtherOwner.ObjectMeta.UID ∧
    (Reconcile sampleEnv {} sampleKey sampleWorldFresh).world.ospHostAliases
      = (Reconcile sampleEnv {} sampleKey sampleWorldOtherOwner).world.ospHostAliases ∧
    (Reconcile sampleEnv {} sampleKey sampleWorldFresh).frame.configMap.Data
      = (Reconcile sampleEnv {} sampleKey sampleWorldOtherOwner).frame.configMap.Data ∧
    (Reconcile sampleEnv {} sampleKey sampleWorldFresh).err = none ∧
    (Reconcile sampleEnv {} sampleKey sampleWorldOtherOwner).err = none ∧
    (Reconcile sampleEnv {} sampleKey sampleWorldFresh).frame.configMapHash
      = "cm:agent1::uid-1;" ∧
    (Reconcile sampleEnv {} sampleKey sampleWorldOtherOwner).frame.configMapHash
      = "cm:agent1::uid-2;" ∧
    (Reconcile sampleEnv {} sampleKey sampleWorldFresh).frame.dsHash
      ≠ (Reconcile sampleEnv {} sampleKey sampleWorldOtherOwner).frame.dsHash := by
  decide

/-- C12 (amended): two passes that reach the `Get` of the DaemonSet, over
agents with the same name, namespace, label and image, with the same host
aliases and the same ConfigMap fingerprint, compute the same DaemonSet
fingerprint, for every hash function and whatever owner reference is set on
the DaemonSet or other metadata the agents carry. -/
theorem dsHash_independent_of_daemonSet_owner (env : Env) (f₁ f₂ : Faults)
    (req₁ req₂ : NamespacedName) (w₁ w₂ : World) (inst₁ inst₂ : NeutronSriovAgent)
    (key₁ key₂ : NamespacedName) (ge₁ ge₂ : Option Error)
    (hinst₁ : w₁.store.agent req₁ = some inst₁)
    (hinst₂ : w₂.store.agent req₂ = some inst₂)
    (hget₁ : { call := Call.Get Kind.DaemonSet key₁, err := ge₁ }
      ∈ (Reconcile env f₁ req₁ w₁).calls)
    (hget₂ : { call := Call.Get Kind.DaemonSet key₂, err := ge₂ }
      ∈ (Reconcile env f₂ req₂ w₂).calls)
    (hname : inst₁.ObjectMeta.Name = inst₂.ObjectMeta.Name)
    (hns : inst₁.ObjectMeta.Namespace = inst₂.ObjectMeta.Namespace)
    (hlabel : inst₁.Spec.Label = inst₂.Spec.Label)
    (himage : inst₁.Spec.NeutronSriovImage = inst₂.Spec.NeutronSriovImage)
    (haliases : (Reconcile env f₁ req₁ w₁).world.ospHostAliases
      = (Reconcile env f₂ req₂ w₂).world.ospHostAliases)
    (hcm : (Reconcile env f₁ req₁ w₁).frame.configMapHash
      = (Reconcile env f₂ req₂ w₂).frame.configMapHash) :
    (Reconcile env f₁ req₁ w₁).frame.dsHash = (Reconcile env f₂ req₂ w₂).frame.dsHash := by
  have h₁ := Reconcile_dsHash_eq env f₁ req₁ w₁ inst₁ key₁ ge₁ hinst₁ hget₁
  have h₂ := Reconcile_dsHash_eq env f₂ req₂ w₂ inst₂ key₂ ge₂ hinst₂ hget₂
  have hspec : inst₁.Spec = inst₂.Spec := by
    cases hs₁ : inst₁.Spec
    cases hs₂ : inst₂.Spec
    rw [hs₁, hs₂] at hlabel himage
    simp only at hlabel himage
    rw [hlabel, himage]
  rw [haliases, hcm, hname,
    newDaemonset_congr _ inst₁ inst₂ _ _ hns hname hspec, h₂] at h₁
  exact (Except.ok.inj h₁).symm

/-- Witness of `dsHash_independent_of_daemonSet_owner`: two incarnations of
the agent with different UIDs, under a ConfigMap hash that reads name and data
only; the owner references of the two DaemonSets differ, the fingerprints do
not. -/
theorem dsHash_independent_of_daemonSet_owner_witness :
    (sampleAgent "").ObjectMeta.UID ≠ sampleAgentOtherOwner.ObjectMeta.UID ∧
    (Reconcile sampleEnvDataHash {} sampleKey sampleWorldFresh).frame.ds.ObjectMeta.OwnerReferences
      ≠ (Reconcile sampleEnvDataHash {} sampleKey
          sampleWorldOtherOwner).frame.ds.ObjectMeta.OwnerReferences ∧
    (Reconcile sampleEnvDataHash {} sampleKey sampleWorldFresh).frame.dsHash
      = (Reconcile sampleEnvDataHash {} sampleKey sampleWorldOtherOwner).frame.dsHash :=
  ⟨by decide, by decide,
    dsHash_independent_of_daemonSet_owner sampleEnvDataHash {} {} sampleKey sampleKey
      sampleWorldFresh sampleWorldOtherOwner (sampleAgent "") sampleAgentOtherOwner
      sampleKey sampleKey (some (notFoundError sampleKey)) (some (notFoundError sampleKey))
      (by decide) (by decide) (by decide) (by decide) (by decide) (by decide) (by decide)
      (by decide) (by decide) (by decide)⟩

end NeutronOperator
